import Mathlib

/-!
Shallow embedding of the resume-mcp parsing-and-matching engine
(`src/resume_mcp`), together with theorems settling the frozen claims
about its specification.

Conventions of the embedding:
* Python floats are modelled as `ℚ` (the scoring code does exact-looking
  arithmetic on small numbers; no claim depends on binary rounding).
* Python dicts are modelled as insertion-ordered association lists
  `List (key × value)`; `dict.get k (default)` is `List.lookup` plus `getD`.
* Python sets built by `set(...)` are modelled as deduplicated lists;
  only membership and cardinality of these sets are ever used.
* `None`-able values are `Option`; Python truthiness of strings/options is
  modelled explicitly where the source relies on it.
* Pydantic models are modelled as plain structures carrying the fields the
  engine reads or writes; fields never touched by the embedded code paths
  are omitted.
-/

namespace ResumeMcp

/-! ## Text primitives

The Python sources manipulate `str` values with `.lower()`, `.strip()`,
`.split()`, `in`, and a handful of fixed regular expressions. These are
embedded as structurally recursive functions over `List Char` (ASCII
lower-casing suffices: every pattern and keyword in the sources is ASCII). -/

/-- ASCII lower-casing of one character (`str.lower`). -/
def lowerChar (c : Char) : Char :=
  if 'A' ≤ c ∧ c ≤ 'Z' then Char.ofNat (c.toNat + 32) else c

/-- `str.lower()`. -/
def strLower (s : String) : String := ⟨s.data.map lowerChar⟩

/-- Python whitespace (the `\s` class and the default `str.strip` set). -/
def isWs (c : Char) : Bool :=
  c = ' ' ∨ c = '\t' ∨ c = '\n' ∨ c = '\r' ∨ c = '\x0b' ∨ c = '\x0c'

/-- Strip leading and trailing whitespace (`str.strip()`). -/
def trimCh (cs : List Char) : List Char :=
  ((cs.dropWhile isWs).reverse.dropWhile isWs).reverse

/-- `str.strip()` on a `String`. -/
def strTrim (s : String) : String := ⟨trimCh s.data⟩

/-- Split a character list at every character satisfying `p`, keeping empty
pieces (the shape of Python `str.split(sep)` for a one-character `sep`). -/
def splitIfCh (p : Char → Bool) : List Char → List (List Char)
  | [] => [[]]
  | c :: cs =>
    match splitIfCh p cs with
    | [] => [[]]
    | g :: gs => if p c then [] :: g :: gs else (c :: g) :: gs

/-- `text.split('\n')` as strings. -/
def splitLines (s : String) : List String :=
  (splitIfCh (fun c => c = '\n') s.data).map String.mk

/-- Python `str.split()` with no argument: maximal runs of
non-whitespace characters. -/
def wordsCh (cs : List Char) : List (List Char) :=
  (splitIfCh isWs cs).filter (fun g => !g.isEmpty)

/-- Python `needle in hay` (substring containment). -/
def containsSub (needle : List Char) : List Char → Bool
  | [] => needle.isEmpty
  | c :: cs => needle.isPrefixOf (c :: cs) || containsSub needle cs

/-- Python `needle in hay` on `String`s. -/
def containsSubstr (hay needle : String) : Bool :=
  containsSub needle.data hay.data

/-- Python truthiness of an `Optional[str]`: `None` and `""` are falsy
(used by the source as `if not x`). -/
def optFalsy : Option String → Bool
  | none => true
  | some s => s == ""

/-- Python `x or d` for an `Optional[float]` with default `0` collapses
`None` to `0` (and `0.0 or 0` is `0` as well), i.e. `Option.getD`. -/
def orZero (o : Option ℚ) : ℚ := o.getD 0

/-- Lower-case a list of strings and remove duplicates: the model of
Python `set(s.lower() for s in l)`. -/
def lowerSet (l : List String) : List String :=
  (l.map strLower).dedup

/-- Cardinality of `set.intersection`: how many elements of the
(deduplicated) set `cat` lie in the set `rs`. -/
def interCount (rs cat : List String) : ℕ :=
  (cat.filter (fun s => rs.contains s)).length

/-! ## Data model (`models/schemas.py`) -/

/-- `schemas.SkillCategory` (schemas.py:17-23): the five skill categories. -/
inductive SkillCategory
  | technical
  | soft
  | language
  | certification
  | domain
deriving DecidableEq, Repr

/-- The `.value` of the `str`-valued enum `SkillCategory`. -/
def SkillCategory.value : SkillCategory → String
  | .technical => "technical"
  | .soft => "soft"
  | .language => "language"
  | .certification => "certification"
  | .domain => "domain"

/-- `schemas.SkillLevel` (schemas.py:9-14). -/
inductive SkillLevel
  | beginner
  | intermediate
  | advanced
  | expert
deriving DecidableEq, Repr

/-- `schemas.Skill` (schemas.py:26-32). -/
structure Skill where
  name : String
  category : SkillCategory
  level : Option SkillLevel := none
  keywords : List String := []
deriving DecidableEq, Repr

/-- `schemas.Education` (schemas.py:35-42). -/
structure Education where
  institution : String
  degree : String
  field_of_study : Option String := none
  graduation_year : Option Int := none
  gpa : Option ℚ := none
deriving DecidableEq, Repr

/-- `schemas.WorkExperience` (schemas.py:45-55). -/
structure WorkExperience where
  company : String
  title : String
  start_date : Option String := none
  end_date : Option String := none
  duration_months : Option Int := none
  description : String
  responsibilities : List String := []
  achievements : List String := []
  skills_used : List String := []
deriving DecidableEq, Repr

/-- `schemas.ContactInfo` (schemas.py:58-66). -/
structure ContactInfo where
  name : Option String := none
  email : Option String := none
  phone : Option String := none
  location : Option String := none
  linkedin : Option String := none
  github : Option String := none
  website : Option String := none
deriving DecidableEq, Repr

/-- `schemas.ResumeData` (schemas.py:69-84), without the wall-clock
`created_at` timestamp and the free-form `metadata` dict. -/
structure ResumeData where
  id : Option String := none
  filename : String
  contact_info : ContactInfo
  summary : Option String := none
  skills : List Skill := []
  education : List Education := []
  work_experience : List WorkExperience := []
  certifications : List String := []
  projects : List String := []
  languages : List String := []
  total_experience_years : Option ℚ := none
  raw_text : String
deriving DecidableEq, Repr

/-- `schemas.JobRequirement` (schemas.py:87-93). -/
structure JobRequirement where
  skill : String
  category : SkillCategory
  importance : ℚ
  required : Bool := false
  minimum_years : Option Int := none
deriving DecidableEq, Repr

/-- `schemas.JobPosting` (schemas.py:96-108), without `created_at`.
`required_skills : Dict[str, List[str]]` is an insertion-ordered
association list. -/
structure JobPosting where
  id : Option String := none
  title : String
  company : Option String := none
  location : Option String := none
  description : String
  required_skills : List (String × List String) := []
  preferred_skills : List String := []
  education_required : Option String := none
  experience_required : Option String := none
  seniority_level : Option String := none
  industry : Option String := none
  responsibilities : List String := []
deriving DecidableEq, Repr

/-- `schemas.SkillMatch` (schemas.py:126-139), restricted to the fields the
matcher writes (`score`, `matched_skills`, `missing_skills`). -/
structure SkillMatch where
  score : ℚ
  matched_skills : List String
  missing_skills : List String
deriving DecidableEq, Repr

/-- `schemas.ExperienceMatch` (schemas.py:142-149). The matcher passes a
`bool` for the `seniority_match` field, so it is embedded as `Bool`. -/
structure ExperienceMatch where
  score : ℚ
  years_experience : ℚ
  required_years : ℚ
  meets_requirements : Bool
  seniority_match : Bool
  relevant_experience_years : ℚ
deriving DecidableEq, Repr

/-- `schemas.EducationMatch` (schemas.py:152-157). -/
structure EducationMatch where
  score : ℚ
  meets_requirements : Bool
  education_level_match : Bool
deriving DecidableEq, Repr

/-- `schemas.OverallMatch` (schemas.py:160-167), restricted to the scalar
fields (the matcher also stows copies of the three component matches). -/
structure OverallMatch where
  score : ℚ
  match_level : String
  confidence : ℚ
  semantic_score : ℚ
deriving DecidableEq, Repr

/-! ## Skill scoring (`analyzers/resume_matcher.py`, `_calculate_skills_match`) -/

/-- `ResumeMatcher.skill_weights` (resume_matcher.py:37-44): per-category
skill importance weights. -/
def skillWeights : List (String × ℚ) :=
  [("programming_languages", 15/10),
   ("frameworks_libraries", 13/10),
   ("databases", 12/10),
   ("cloud_devops", 14/10),
   ("data_science", 13/10),
   ("soft_skills", 8/10)]

/-- `self.skill_weights.get(category, 1.0)` (resume_matcher.py:136). -/
def skillWeight (category : String) : ℚ :=
  (skillWeights.lookup category).getD 1

/-- The résumé's skill-name set `set(skill.name.lower() ...)`
(resume_matcher.py:109-111). -/
def resumeSkillSet (resume : ResumeData) : List String :=
  lowerSet (resume.skills.map Skill.name)

/-- The job's combined skill set: all required-skill category entries and
all preferred skills, lower-cased (resume_matcher.py:114-123). -/
def jobSkillSet (job : JobPosting) : List String :=
  lowerSet ((job.required_skills.map Prod.snd).flatten ++ job.preferred_skills)

/-- Required-skill denominator: `Σ len(category_skills) * weight`
(resume_matcher.py:134-138). -/
def requiredTotalWeight (job : JobPosting) : ℚ :=
  (job.required_skills.map
    (fun p => ((lowerSet p.2).length : ℚ) * skillWeight p.1)).sum

/-- Required-skill numerator: `Σ len(category_skills ∩ resume_skills) * weight`
(resume_matcher.py:139-140). -/
def requiredMatchedWeight (resume : ResumeData) (job : JobPosting) : ℚ :=
  (job.required_skills.map
    (fun p => (interCount (resumeSkillSet resume) (lowerSet p.2) : ℚ) *
      skillWeight p.1)).sum

/-- The full `total_weight` accumulated by `_calculate_skills_match`
(resume_matcher.py:130-148): weighted required categories plus the
preferred-skill set at weight `0.5`. -/
def skillsTotalWeight (job : JobPosting) : ℚ :=
  requiredTotalWeight job + ((lowerSet job.preferred_skills).length : ℚ) * (5/10)

/-- The full `matched_weight` accumulated by `_calculate_skills_match`
(resume_matcher.py:130-148). -/
def skillsMatchedWeight (resume : ResumeData) (job : JobPosting) : ℚ :=
  requiredMatchedWeight resume job +
    (interCount (resumeSkillSet resume) (lowerSet job.preferred_skills) : ℚ) * (5/10)

/-- `ResumeMatcher._calculate_skills_match` (resume_matcher.py:106-156):
weighted required skills plus preferred skills at weight `0.5`;
`score = matched/total*100` when `total > 0`, else `0`; result clamped by
`min(100, score)`. -/
def calculateSkillsMatch (resume : ResumeData) (job : JobPosting) : SkillMatch :=
  let rs := resumeSkillSet resume
  let js := jobSkillSet job
  let score := if 0 < skillsTotalWeight job then
    skillsMatchedWeight resume job / skillsTotalWeight job * 100 else 0
  { score := min 100 score
    matched_skills := rs.filter (fun s => js.contains s)
    missing_skills := js.filter (fun s => !rs.contains s) }

/-! ## Experience scoring (`_calculate_experience_match`, `_extract_experience_years`) -/

/-- Numeric value of a digit run. -/
def digitsToNat (ds : List Char) : ℕ :=
  ds.foldl (fun n c => n * 10 + (c.toNat - 48)) 0

/-- Skip characters satisfying `p` (a greedy `X*`). -/
def skipWhile (p : Char → Bool) : List Char → List Char
  | [] => []
  | c :: cs => if p c then skipWhile p cs else c :: cs

/-- Whitespace for the `\s` character class. -/
def isSpaceChar (c : Char) : Bool :=
  c = ' ' ∨ c = '\t' ∨ c = '\n' ∨ c = '\r' ∨ c = '\x0b' ∨ c = '\x0c'

/-- Greedy match of the tail of the pattern
`[-\s]*(?:to|\+)?\s*(?:\d+)?\s*years?` after the captured digit run
(resume_matcher.py:349). A greedy, non-backtracking rendering of the
regex; the alternation branches never overlap on the inputs this code
receives. -/
def yearsTail (cs : List Char) : Bool :=
  let cs := skipWhile (fun c => c = '-' ∨ isSpaceChar c) cs
  let cs := match cs with
    | 't' :: 'o' :: rest => rest
    | '+' :: rest => rest
    | rest => rest
  let cs := skipWhile isSpaceChar cs
  let cs := skipWhile Char.isDigit cs
  let cs := skipWhile isSpaceChar cs
  match cs with
  | 'y' :: 'e' :: 'a' :: 'r' :: _ => true
  | _ => false

/-- Leftmost match of `(\d+)[-\s]*(?:to|\+)?\s*(?:\d+)?\s*years?`
returning the captured first digit run. -/
def searchYearsPat1 : List Char → Option ℕ
  | [] => none
  | c :: cs =>
    if c.isDigit then
      let ds := (c :: cs).takeWhile Char.isDigit
      let rest := (c :: cs).dropWhile Char.isDigit
      if yearsTail rest then some (digitsToNat ds)
      else searchYearsPat1 cs
    else searchYearsPat1 cs

/-- Leftmost match of `(\d+)\s*yrs?` returning the captured digit run. -/
def searchYearsPat2 : List Char → Option ℕ
  | [] => none
  | c :: cs =>
    if c.isDigit then
      let ds := (c :: cs).takeWhile Char.isDigit
      let rest := skipWhile isSpaceChar ((c :: cs).dropWhile Char.isDigit)
      match rest with
      | 'y' :: 'r' :: _ => some (digitsToNat ds)
      | _ => searchYearsPat2 cs
    else searchYearsPat2 cs

/-- After a literal keyword: `\s*(\d+)\s*years?`, returning the digit run. -/
def digitsThenYears (cs : List Char) : Option ℕ :=
  let cs := skipWhile isSpaceChar cs
  let ds := cs.takeWhile Char.isDigit
  if ds.isEmpty then none
  else
    let rest := skipWhile isSpaceChar (cs.dropWhile Char.isDigit)
    match rest with
    | 'y' :: 'e' :: 'a' :: 'r' :: _ => some (digitsToNat ds)
    | _ => none

/-- Leftmost occurrence of the literal `kw` followed by `\s*(\d+)\s*years?`. -/
def searchKeywordYears (kw : List Char) : List Char → Option ℕ
  | [] => none
  | c :: cs =>
    if kw.isPrefixOf (c :: cs) then
      match digitsThenYears ((c :: cs).drop kw.length) with
      | some n => some n
      | none => searchKeywordYears kw cs
    else searchKeywordYears kw cs

/-- `ResumeMatcher._extract_experience_years` (resume_matcher.py:342-360):
returns `0` for empty text, otherwise the first captured digit run of the
first matching pattern among
`(\d+)[-\s]*(?:to|\+)?\s*(?:\d+)?\s*years?`, `(\d+)\s*yrs?`,
`minimum\s*(\d+)\s*years?`, `at least\s*(\d+)\s*years?` over the
lower-cased text, else `0`. -/
def extractExperienceYears (text : String) : ℚ :=
  if text == "" then 0
  else
    let t := (strLower text).data
    match searchYearsPat1 t with
    | some n => (n : ℚ)
    | none =>
      match searchYearsPat2 t with
      | some n => (n : ℚ)
      | none =>
        match searchKeywordYears ("minimum".toList) t with
        | some n => (n : ℚ)
        | none =>
          match searchKeywordYears ("at least".toList) t with
          | some n => (n : ℚ)
          | none => 0

/-- `ResumeMatcher.experience_levels` (resume_matcher.py:47-54). -/
def experienceLevels : List (String × ℚ × ℚ) :=
  [("entry", 0, 2), ("junior", 1, 3), ("mid", 3, 6),
   ("senior", 5, 10), ("lead", 7, 15), ("executive", 10, 30)]

/-- `ResumeMatcher._calculate_seniority_match` (resume_matcher.py:378-384). -/
def calculateSeniorityMatch (years : ℚ) (requiredSeniority : String) : Bool :=
  if requiredSeniority == "" then true
  else
    let range := (experienceLevels.lookup (strLower requiredSeniority)).getD (0, 0)
    decide (range.1 ≤ years ∧ years ≤ range.2)

/-- `ResumeMatcher._calculate_relevant_experience` (resume_matcher.py:362-376):
years at companies whose lower-cased name contains the job's lower-cased
industry, using `duration_months / 12` for truthy durations. -/
def calculateRelevantExperience (resume : ResumeData) (job : JobPosting) : ℚ :=
  if resume.work_experience.isEmpty ∨ optFalsy job.industry then 0
  else
    let ind := strLower (job.industry.getD "")
    (resume.work_experience.map (fun exp =>
      if exp.company ≠ "" ∧ containsSubstr (strLower exp.company) ind then
        match exp.duration_months with
        | some d => if d ≠ 0 then (d : ℚ) / 12 else 0
        | none => 0
      else 0)).sum

/-- `ResumeMatcher._calculate_experience_match` (resume_matcher.py:158-185):
`100` when no requirement parses; `min(100, 80 + (have-need)*5)` when the
requirement is met; `max(0, have/need*80)` otherwise;
`meets_requirements = have ≥ need`. -/
def calculateExperienceMatch (resume : ResumeData) (job : JobPosting) : ExperienceMatch :=
  let totalExperience := orZero resume.total_experience_years
  let requiredYears := extractExperienceYears (job.experience_required.getD "")
  let score : ℚ :=
    if requiredYears = 0 then 100
    else if totalExperience ≥ requiredYears then
      min 100 (80 + (totalExperience - requiredYears) * 5)
    else max 0 (totalExperience / requiredYears * 80)
  { score := score
    years_experience := totalExperience
    required_years := requiredYears
    meets_requirements := decide (totalExperience ≥ requiredYears)
    seniority_match := calculateSeniorityMatch totalExperience
      (job.seniority_level.getD "")
    relevant_experience_years := calculateRelevantExperience resume job }

/-! ## Education scoring (`_calculate_education_match`) -/

/-- The education hierarchy dict (resume_matcher.py:202-209), in insertion
order. -/
def educationHierarchy : List (String × ℕ) :=
  [("high school", 1), ("associate", 2), ("bachelor", 3),
   ("master", 4), ("phd", 5), ("doctorate", 5)]

/-- Highest hierarchy level mentioned (as a substring) in any of the
résumé's truthy lower-cased degree strings (resume_matcher.py:211-216). -/
def maxResumeLevel (resume : ResumeData) : ℕ :=
  let degrees := (resume.education.filter (fun e => e.degree ≠ "")).map
    (fun e => strLower e.degree)
  degrees.foldl (fun m d =>
    educationHierarchy.foldl (fun m2 p =>
      if containsSubstr d p.1 then max m2 p.2 else m2) m) 0

/-- First hierarchy level whose name occurs in the lower-cased required
education string, else `0` (resume_matcher.py:218-223). -/
def requiredLevelValue (requiredLevel : String) : ℕ :=
  match educationHierarchy.find? (fun p => containsSubstr requiredLevel p.1) with
  | some p => p.2
  | none => 0

/-- `ResumeMatcher._calculate_education_match` (resume_matcher.py:187-236):
`100/meets` when no requirement is stated; `0/fails` when the résumé has
no education records; otherwise `100` when the highest résumé level meets
the required level, else `(max_level/required_level)*70` (or `0` when the
required level is `0`, a branch made unreachable by the preceding
comparison). -/
def calculateEducationMatch (resume : ResumeData) (job : JobPosting) : EducationMatch :=
  if optFalsy job.education_required then
    { score := 100, meets_requirements := true, education_level_match := true }
  else
    let requiredLevel := strLower (job.education_required.getD "")
    if resume.education.isEmpty then
      { score := 0, meets_requirements := false, education_level_match := false }
    else
      let maxLevel := maxResumeLevel resume
      let reqLevel := requiredLevelValue requiredLevel
      if maxLevel ≥ reqLevel then
        { score := 100, meets_requirements := true, education_level_match := true }
      else
        { score := if 0 < reqLevel then ((maxLevel : ℚ) / (reqLevel : ℚ)) * 70 else 0
          meets_requirements := false
          education_level_match := false }

/-! ## Overall scoring (`_calculate_overall_match`, `_calculate_confidence`) -/

/-- `ResumeMatcher._calculate_confidence` (resume_matcher.py:437-465). -/
def calculateConfidence (sk : SkillMatch) (ex : ExperienceMatch)
    (ed : EducationMatch) : ℚ :=
  let f1 : ℚ := if 0 < sk.matched_skills.length then
    min ((sk.matched_skills.length : ℚ) / 5) 1 else 3/10
  let f2 : ℚ := if 0 < ex.years_experience then 9/10 else 5/10
  let f3 : ℚ := if ed.meets_requirements then 9/10 else 6/10
  (f1 + f2 + f3) / 3 * 100

/-- `ResumeMatcher._calculate_overall_match` (resume_matcher.py:261-302):
the weighted component sum (weights dict: skills 0.4, experience 0.3,
education 0.15, semantic 0.15) and the threshold-based match level. -/
def calculateOverallMatch (sk : SkillMatch) (ex : ExperienceMatch)
    (ed : EducationMatch) (semanticScore : ℚ) : OverallMatch :=
  let overallScore :=
    sk.score * (4/10) + ex.score * (3/10) + ed.score * (15/100) +
      semanticScore * (15/100)
  let matchLevel :=
    if overallScore ≥ 85 then "excellent"
    else if overallScore ≥ 70 then "good"
    else if overallScore ≥ 55 then "fair"
    else "poor"
  { score := overallScore
    match_level := matchLevel
    confidence := calculateConfidence sk ex ed
    semantic_score := semanticScore }

/-! ## More text scanning primitives -/

/-- Characters in the `\w` regex class (ASCII). -/
def isWordChar (c : Char) : Bool := c.isAlphanum ∨ c = '_'

/-- One piece of the regex `\b` semantics at a match edge: a boundary lies
between two characters exactly when one is a word character and the other
is not (an absent neighbour counts as non-word). -/
def charWord : Option Char → Bool
  | none => false
  | some c => isWordChar c

/-- Does the word `w` (nonempty) match at the head of `cs` with `\b` on both
sides, given the character `prev` just before the match position? -/
def wordMatchHere (prev : Option Char) (w cs : List Char) : Bool :=
  match w with
  | [] => false
  | w0 :: _ =>
    w.isPrefixOf cs &&
    (charWord prev != charWord (some w0)) &&
    (charWord (some (w.getLastD w0)) != charWord ((cs.drop w.length).head?))

/-- Scan for `\b w \b` anywhere in `cs`, carrying the previous character. -/
def wordScan (w : List Char) (prev : Option Char) : List Char → Bool
  | [] => false
  | c :: cs => wordMatchHere prev w (c :: cs) || wordScan w (some c) cs

/-- `re.search(r'\b' + re.escape(w) + r'\b', text, re.IGNORECASE)` as a
boolean: the word-boundary-delimited, case-insensitive occurrence test used
for skill and keyword mentions. -/
def mentionsWord (text w : String) : Bool :=
  wordScan (strLower w).data none (strLower text).data

/-- Split at the first occurrence of `sep` (nonempty), returning the parts
before and after it. -/
def splitFirst (sep : List Char) : List Char → Option (List Char × List Char)
  | [] => none
  | c :: cs =>
    if sep.isPrefixOf (c :: cs) then some ([], (c :: cs).drop sep.length)
    else
      match splitFirst sep cs with
      | some (pre, post) => some (c :: pre, post)
      | none => none

/-- Join strings with newlines (`'\n'.join`). -/
def joinNl (ls : List String) : String :=
  String.mk (((ls.map String.data).intersperse ['\n']).flatten)

/-- Strip, then drop empty lines: the ubiquitous
`[line.strip() for line in text.split('\n') if line.strip()]`. -/
def strippedLines (text : String) : List String :=
  ((splitLines text).map strTrim).filter (fun l => l != "")

/-! ## Section extraction (`analyzers/resume_analyzer.py`, `_extract_sections`) -/

/-- The section header patterns (resume_analyzer.py:175-182), in dict
insertion order; each regex `(?i)^(kw1|kw2|…)` is a case-insensitive
prefix test against one of the listed keywords. -/
def sectionPatterns : List (String × List String) :=
  [("summary", ["summary", "profile", "objective", "about", "overview"]),
   ("experience", ["experience", "employment", "work", "professional", "career"]),
   ("education", ["education", "academic", "qualifications", "degree"]),
   ("skills", ["skills", "technical", "competencies", "technologies"]),
   ("projects", ["projects", "portfolio"]),
   ("certifications", ["certifications", "certificates", "licenses"])]

/-- Header detection (resume_analyzer.py:189-195): a line of at most five
words whose lower-casing starts with one of a section's keywords; the
first matching section (in pattern order) wins. -/
def headerFor (line : String) : Option String :=
  if (wordsCh line.data).length ≤ 5 then
    (sectionPatterns.find? (fun p =>
      p.2.any (fun kw => kw.data.isPrefixOf (strLower line).data))).map Prod.fst
  else none

/-- Python dict truthiness of `sections.get('summary')`. -/
def truthyGet (o : Option String) : Bool :=
  match o with
  | none => false
  | some s => s != ""

/-- `sections[k] = v` on the insertion-ordered dict model: overwrite in
place if the key exists, else append. -/
def dictSet (d : List (String × String)) (k v : String) : List (String × String) :=
  if (d.lookup k).isSome then d.map (fun p => if p.1 = k then (k, v) else p)
  else d ++ [(k, v)]

/-- The body of `_extract_sections`' line loop (resume_analyzer.py:185-216),
including the final save of the last section. State: remaining lines,
`current_section`, `current_content`, `sections`. Pre-header lines hit the
guarded summary branch (resume_analyzer.py:206-212): because a saved
summary line is never empty, the `+=` accumulation arm is unreachable and
only the first pre-header line is kept. -/
def sectionsLoop : List String → Option String → List String →
    List (String × String) → List (String × String)
  | [], cur, content, sections =>
    match cur with
    | some sec => if content.isEmpty then sections else dictSet sections sec (joinNl content)
    | none => sections
  | line :: rest, cur, content, sections =>
    match headerFor line with
    | some sec =>
      let sections1 :=
        match cur with
        | some c => if content.isEmpty then sections else dictSet sections c (joinNl content)
        | none => sections
      sectionsLoop rest (some sec) [] sections1
    | none =>
      match cur with
      | some _ => sectionsLoop rest cur (content ++ [line]) sections
      | none =>
        let sections1 :=
          if !truthyGet (sections.lookup "summary") then
            if (sections.lookup "summary").isNone then dictSet sections "summary" line
            else dictSet sections "summary"
              (((sections.lookup "summary").getD "") ++ "\n" ++ line)
          else sections
        sectionsLoop rest cur content sections1

/-- `ResumeAnalyzer._extract_sections` (resume_analyzer.py:170-218). -/
def extractSections (text : String) : List (String × String) :=
  sectionsLoop (strippedLines text) none [] []

/-! ## Date extraction (`resume_analyzer.py`, `_extract_dates`,
`_calculate_duration_months`)

The analysis-time current date (`datetime.now()`, and dateutil's default
date used to fill fields missing from a parsed token) is passed explicitly
as `now = (year, month)`. The three `findall` scans are fueled with the
text length: fuel only ever decreases at least as fast as the text, so with
`fuel = length` the scan is exact. -/

/-- Match `\d{1,2}/\d{1,2}/\d{4}` at the head of `cs`; returns the matched
characters and the remaining input. -/
def matchMDY (cs : List Char) : Option (List Char × List Char) :=
  let d1 := cs.takeWhile Char.isDigit
  if d1.length = 0 ∨ 2 < d1.length then none
  else
    match cs.drop d1.length with
    | '/' :: r1 =>
      let d2 := r1.takeWhile Char.isDigit
      if d2.length = 0 ∨ 2 < d2.length then none
      else
        (match r1.drop d2.length with
         | '/' :: r2 =>
           let d3 := r2.takeWhile Char.isDigit
           if 4 ≤ d3.length then
             some (d1 ++ '/' :: (d2 ++ '/' :: d3.take 4), r2.drop 4)
           else none
         | _ => none)
    | _ => none

/-- Match `\d{4}` at the head of `cs`. -/
def matchYYYY (cs : List Char) : Option (List Char × List Char) :=
  let d := cs.takeWhile Char.isDigit
  if 4 ≤ d.length then some (d.take 4, cs.drop 4) else none

/-- Non-overlapping `findall` of `(\d{1,2}/\d{1,2}/\d{4}|\d{4})`
(resume_analyzer.py:324): the captured group is the whole alternation. -/
def findDates1 : ℕ → List Char → List String
  | 0, _ => []
  | _, [] => []
  | fuel + 1, c :: cs =>
    match matchMDY (c :: cs) with
    | some (tok, rest) => String.mk tok :: findDates1 fuel rest
    | none =>
      match matchYYYY (c :: cs) with
      | some (tok, rest) => String.mk tok :: findDates1 fuel rest
      | none => findDates1 fuel cs

/-- The twelve month-name abbreviations of the pattern, with month numbers. -/
def monthAbbrevs : List (String × Int) :=
  [("jan", 1), ("feb", 2), ("mar", 3), ("apr", 4), ("may", 5), ("jun", 6),
   ("jul", 7), ("aug", 8), ("sep", 9), ("oct", 10), ("nov", 11), ("dec", 12)]

/-- Match `(Jan|Feb|…|Dec)[a-z]*\s+\d{4}` (case-insensitively) at the head;
returns the captured group — the three-letter month name as it appears —
and the rest of the input after the whole match. -/
def matchMonthYear (cs : List Char) : Option (List Char × List Char) :=
  match cs with
  | a :: b :: c :: rest =>
    if (monthAbbrevs.lookup (String.mk [lowerChar a, lowerChar b, lowerChar c])).isSome then
      let r1 := rest.dropWhile Char.isAlpha
      let sp := r1.takeWhile isWs
      if sp.isEmpty then none
      else
        let r2 := r1.dropWhile isWs
        let d := r2.takeWhile Char.isDigit
        if 4 ≤ d.length then some ([a, b, c], r2.drop 4) else none
    else none
  | _ => none

/-- Non-overlapping `findall` of the month-name pattern
(resume_analyzer.py:325): with a single group in the pattern, `findall`
collects only the captured month name, not the year. -/
def findDates2 : ℕ → List Char → List String
  | 0, _ => []
  | _, [] => []
  | fuel + 1, c :: cs =>
    match matchMonthYear (c :: cs) with
    | some (tok, rest) => String.mk tok :: findDates2 fuel rest
    | none => findDates2 fuel cs

/-- Non-overlapping `findall` of `\d{4}` (resume_analyzer.py:326). -/
def findDates3 : ℕ → List Char → List String
  | 0, _ => []
  | _, [] => []
  | fuel + 1, c :: cs =>
    match matchYYYY (c :: cs) with
    | some (tok, rest) => String.mk tok :: findDates3 fuel rest
    | none => findDates3 fuel cs

/-- The open-ended end markers `present|current|now`. -/
def presentWords : List String := ["present", "current", "now"]

/-- `re.search(r'\b(present|current|now)\b', text, re.IGNORECASE)`
(resume_analyzer.py:335). -/
def hasPresentWord (text : String) : Bool :=
  presentWords.any (fun w => mentionsWord text w)

/-- `dateutil.parser.parse` restricted to the token shapes the date scanner
produces, as a `(year, month)` pair: a bare 4-digit year keeps the default
(current) month; `MM/DD/YYYY` must carry a plausible month and day or
parsing raises; a bare month name keeps the default (current) year.
Any other shape fails. -/
def parseDateToken (now : Int × Int) (s : String) : Option (Int × Int) :=
  let cs := (strLower s).data
  match splitFirst ['/'] cs with
  | some (mm, rest) =>
    (match splitFirst ['/'] rest with
     | some (dd, yyyy) =>
       if mm.all Char.isDigit && dd.all Char.isDigit && yyyy.all Char.isDigit &&
           decide (1 ≤ digitsToNat mm) && decide (digitsToNat mm ≤ 12) &&
           decide (1 ≤ digitsToNat dd) && decide (digitsToNat dd ≤ 31) &&
           decide (1 ≤ digitsToNat yyyy) && decide (digitsToNat yyyy ≤ 9999) then
         some ((digitsToNat yyyy : Int), (digitsToNat mm : Int))
       else none
     | none => none)
  | none =>
    if cs.all Char.isDigit && decide (cs.length = 4) &&
        decide (1 ≤ digitsToNat cs) then
      some ((digitsToNat cs : Int), now.2)
    else
      match monthAbbrevs.lookup (String.mk cs) with
      | some m => some (now.1, m)
      | none => none

/-- `ResumeAnalyzer._calculate_duration_months` (resume_analyzer.py:357-368):
"present"/"current"/"now" end dates become the current date; the result is
the signed whole-month difference `(end.year - start.year) * 12 +
(end.month - start.month)`; any parse failure yields `None`. -/
def calculateDurationMonths (now : Int × Int) (startDate endDate : String) :
    Option Int :=
  let endParsed :=
    if presentWords.contains (strLower endDate) then some now
    else parseDateToken now endDate
  match parseDateToken now startDate, endParsed with
  | some s, some e => some ((e.1 - s.1) * 12 + (e.2 - s.2))
  | _, _ => none

/-- The result dict of `_extract_dates`. -/
structure DateInfo where
  start_date : Option String := none
  end_date : Option String := none
  duration_months : Option Int := none
deriving DecidableEq, Repr

/-- `ResumeAnalyzer._extract_dates` (resume_analyzer.py:320-355): collect the
tokens of all three patterns in order, detect an open-ended marker, pick
start/end, and attach the duration when both ends exist. -/
def extractDates (now : Int × Int) (text : String) : DateInfo :=
  let cs := text.data
  let dates := findDates1 cs.length cs ++ findDates2 cs.length cs ++
    findDates3 cs.length cs
  let present := hasPresentWord text
  match dates with
  | [] => {}
  | [d1] =>
    if present then
      { start_date := some d1, end_date := some "Present"
        duration_months := calculateDurationMonths now d1 "Present" }
    else { start_date := some d1 }
  | d1 :: d2 :: _ =>
    let ed := if present then "Present" else d2
    { start_date := some d1, end_date := some ed
      duration_months := calculateDurationMonths now d1 ed }

/-! ## Work experience extraction (`resume_analyzer.py`,
`_extract_work_experience` and helpers) -/

/-- Match `\(\d{4}[-\s]*\d{4}` at the head (the new-job-line test,
resume_analyzer.py:234). -/
def parenDatesHere (cs : List Char) : Bool :=
  match cs with
  | '(' :: r =>
    let d1 := r.takeWhile Char.isDigit
    if 4 ≤ d1.length then
      let r1 := (r.drop 4).dropWhile (fun c => c = '-' || isWs c)
      4 ≤ (r1.takeWhile Char.isDigit).length
    else false
  | _ => false

/-- `re.search(r'\(\d{4}[-\s]*\d{4}', line)`. -/
def hasParenDates : List Char → Bool
  | [] => false
  | c :: cs => parenDatesHere (c :: cs) || hasParenDates cs

/-- Match the full substitution pattern `\(\d{4}[-\s]*\d{4}\)`
(resume_analyzer.py:299) at the head, returning the rest after the match. -/
def matchParenDatesClosed (cs : List Char) : Option (List Char) :=
  match cs with
  | '(' :: r =>
    let d1 := r.takeWhile Char.isDigit
    if 4 ≤ d1.length then
      let r1 := (r.drop 4).dropWhile (fun c => c = '-' || isWs c)
      if 4 ≤ (r1.takeWhile Char.isDigit).length then
        (match r1.drop 4 with
         | ')' :: r2 => some r2
         | _ => none)
      else none
    else none
  | _ => none

/-- `re.sub(r'\(\d{4}[-\s]*\d{4}\)', '', text)`: delete every occurrence. -/
def removeParenDates : ℕ → List Char → List Char
  | 0, cs => cs
  | _, [] => []
  | fuel + 1, c :: cs =>
    match matchParenDatesClosed (c :: cs) with
    | some rest => removeParenDates fuel rest
    | none => c :: removeParenDates fuel cs

/-- The new-job-entry test of the chunking loop (resume_analyzer.py:234-235):
contains " at " or a parenthesised year range, has at least three words,
and is under 100 characters. -/
def isNewJobLine (line : String) : Bool :=
  (containsSubstr line " at " || hasParenDates line.data) &&
    decide (3 ≤ (wordsCh line.data).length) && decide (line.data.length < 100)

/-- The chunking loop (resume_analyzer.py:231-250): new-job lines open a
chunk; other lines extend the current chunk and are dropped when no chunk
is open yet. -/
def chunkJobs : List String → List String → List (List String)
  | [], current => if current.isEmpty then [] else [current]
  | line :: rest, current =>
    if isNewJobLine line then
      if current.isEmpty then chunkJobs rest [line]
      else current :: chunkJobs rest [line]
    else
      if current.isEmpty then chunkJobs rest []
      else chunkJobs rest (current ++ [line])

/-- Split at the first of `|`, `-` or `,` with both sides nonempty — the
shape of title/company patterns 2-4 (resume_analyzer.py:304-306). -/
def splitTitleDelim (delim : Char) (cs : List Char) : Option (List Char × List Char) :=
  match splitFirst [delim] cs with
  | some (pre, post) => if pre.isEmpty || post.isEmpty then none else some (pre, post)
  | none => none

/-- `ResumeAnalyzer._extract_title_company` (resume_analyzer.py:296-318):
strip parenthesised year ranges, then try "Title at Company" (company cut
at a following open parenthesis), then the `|`, `-`, `,` delimiters; fall
back to the whole text as the title. -/
def extractTitleCompany (text : String) : String × String :=
  let cs := trimCh (removeParenDates text.data.length text.data)
  let atPattern : Option (List Char × List Char) :=
    match splitFirst [' ', 'a', 't', ' '] cs with
    | some (pre, post) =>
      if pre.isEmpty || post.isEmpty then none
      else
        let company :=
          match splitFirst ['('] post with
          | some (before, _) => before
          | none => post
        some (pre, company)
    | none => none
  match atPattern with
  | some (pre, company) =>
    let company := trimCh (removeParenDates company.length company)
    (String.mk (trimCh pre), String.mk company)
  | none =>
    match splitTitleDelim '|' cs with
    | some (t, c) => (String.mk (trimCh t), String.mk (trimCh c))
    | none =>
      match splitTitleDelim '-' cs with
      | some (t, c) => (String.mk (trimCh t), String.mk (trimCh c))
      | none =>
        match splitTitleDelim ',' cs with
        | some (t, c) => (String.mk (trimCh t), String.mk (trimCh c))
        | none => (String.mk cs, "")

/-- The achievement keywords (resume_analyzer.py:378). -/
def achievementKeywords : List String :=
  ["achieved", "improved", "increased", "reduced", "led", "managed",
   "developed", "created"]

/-- `ResumeAnalyzer._parse_responsibilities_achievements`
(resume_analyzer.py:370-386): lines containing an achievement keyword go to
achievements, the rest to responsibilities. -/
def parseRespAch (text : String) : List String × List String :=
  let lines := strippedLines text
  (lines.filter (fun l => !achievementKeywords.any
     (fun kw => containsSubstr (strLower l) kw)),
   lines.filter (fun l => achievementKeywords.any
     (fun kw => containsSubstr (strLower l) kw)))

/-! ## Skill extraction (`resume_analyzer.py`, `_load_skills_database`,
`_extract_skills`, `_extract_skills_from_text`) -/

set_option maxHeartbeats 2000000 in
/-- `ResumeAnalyzer._load_skills_database` (resume_analyzer.py:609-687):
name, category, and keyword list of each known skill, in dict insertion
order. -/
def skillsDatabase : List (String × SkillCategory × List String) :=
  [("Python", .technical, ["python", "py"]),
   ("JavaScript", .technical, ["javascript", "js", "es6"]),
   ("Java", .technical, ["java"]),
   ("C++", .technical, ["c++", "cpp"]),
   ("C#", .technical, ["c#", "csharp"]),
   ("Go", .technical, ["golang", "go"]),
   ("Rust", .technical, ["rust"]),
   ("TypeScript", .technical, ["typescript", "ts"]),
   ("PHP", .technical, ["php"]),
   ("Ruby", .technical, ["ruby"]),
   ("Swift", .technical, ["swift"]),
   ("Kotlin", .technical, ["kotlin"]),
   ("R", .technical, ["r language"]),
   ("MATLAB", .technical, ["matlab"]),
   ("Scala", .technical, ["scala"]),
   ("React", .technical, ["react", "reactjs"]),
   ("Angular", .technical, ["angular", "angularjs"]),
   ("Vue.js", .technical, ["vue", "vuejs"]),
   ("Node.js", .technical, ["node", "nodejs"]),
   ("Express.js", .technical, ["express", "expressjs"]),
   ("Django", .technical, ["django"]),
   ("Flask", .technical, ["flask"]),
   ("FastAPI", .technical, ["fastapi"]),
   ("Spring", .technical, ["spring framework"]),
   ("Laravel", .technical, ["laravel"]),
   ("Ruby on Rails", .technical, ["rails", "ror"]),
   ("MySQL", .technical, ["mysql"]),
   ("PostgreSQL", .technical, ["postgresql", "postgres"]),
   ("MongoDB", .technical, ["mongodb", "mongo"]),
   ("SQLite", .technical, ["sqlite"]),
   ("Redis", .technical, ["redis"]),
   ("Elasticsearch", .technical, ["elasticsearch"]),
   ("Oracle", .technical, ["oracle database"]),
   ("SQL Server", .technical, ["sql server", "mssql"]),
   ("AWS", .technical, ["amazon web services", "aws"]),
   ("Azure", .technical, ["microsoft azure", "azure"]),
   ("Google Cloud", .technical, ["gcp", "google cloud platform"]),
   ("Docker", .technical, ["docker", "containerization"]),
   ("Kubernetes", .technical, ["kubernetes", "k8s"]),
   ("Jenkins", .technical, ["jenkins"]),
   ("Terraform", .technical, ["terraform"]),
   ("Ansible", .technical, ["ansible"]),
   ("Git", .technical, ["git", "version control"]),
   ("GitHub", .technical, ["github"]),
   ("GitLab", .technical, ["gitlab"]),
   ("Machine Learning", .technical, ["ml", "machine learning"]),
   ("Deep Learning", .technical, ["deep learning", "neural networks"]),
   ("TensorFlow", .technical, ["tensorflow"]),
   ("PyTorch", .technical, ["pytorch"]),
   ("Pandas", .technical, ["pandas"]),
   ("NumPy", .technical, ["numpy"]),
   ("Scikit-learn", .technical, ["sklearn", "scikit-learn"]),
   ("Data Analysis", .technical, ["data analysis", "analytics"]),
   ("Data Visualization", .technical, ["data viz", "visualization"]),
   ("Tableau", .technical, ["tableau"]),
   ("Power BI", .technical, ["power bi", "powerbi"]),
   ("Leadership", .soft, ["leadership", "leading teams"]),
   ("Communication", .soft, ["communication", "presentation"]),
   ("Project Management", .soft, ["project management", "pm"]),
   ("Team Collaboration", .soft, ["collaboration", "teamwork"]),
   ("Problem Solving", .soft, ["problem solving", "analytical"]),
   ("Critical Thinking", .soft, ["critical thinking", "analysis"]),
   ("Agile", .soft, ["agile", "scrum", "kanban"]),
   ("Mentoring", .soft, ["mentoring", "coaching"])]

/-- `ResumeAnalyzer._skill_mentioned_in_text` (resume_analyzer.py:489-493):
a case-insensitive, word-boundary-delimited occurrence of the skill name. -/
def skillMentioned (skill text : String) : Bool := mentionsWord text skill

/-- `ResumeAnalyzer._extract_skills_from_text` (resume_analyzer.py:527-533):
the database skill names mentioned in a text section. -/
def extractSkillsFromText (text : String) : List String :=
  (skillsDatabase.map Prod.fst).filter (fun name => skillMentioned name text)

/-- Level indicator keyword lists (resume_analyzer.py:500-502). -/
def expertIndicators : List String := ["expert", "advanced", "lead", "senior", "architect"]

/-- Intermediate level indicators. -/
def intermediateIndicators : List String := ["experienced", "proficient", "skilled"]

/-- Beginner level indicators. -/
def beginnerIndicators : List String := ["basic", "beginner", "learning", "familiar"]

/-- Index of the first `\b skill \b` match (case-insensitive), for the
context window of `_get_skill_context`. -/
def wordScanPos (w : List Char) (prev : Option Char) (i : ℕ) : List Char → Option ℕ
  | [] => none
  | c :: cs =>
    if wordMatchHere prev w (c :: cs) then some i
    else wordScanPos w (some c) (i + 1) cs

/-- `ResumeAnalyzer._get_skill_context` (resume_analyzer.py:515-525): the
50-character window around the first mention, or `""`. -/
def getSkillContext (skill text : String) : String :=
  match wordScanPos (strLower skill).data none 0 (strLower text).data with
  | some i =>
    let startPos := i - 50
    let endPos := min text.data.length (i + skill.data.length + 50)
    String.mk ((text.data.take endPos).drop startPos)
  | none => ""

/-- `ResumeAnalyzer._estimate_skill_level` (resume_analyzer.py:495-513). -/
def estimateSkillLevel (skill text : String) : Option SkillLevel :=
  let context := strLower (getSkillContext skill text)
  if expertIndicators.any (fun k => containsSubstr context k) then some .expert
  else if intermediateIndicators.any (fun k => containsSubstr context k) then
    some .intermediate
  else if beginnerIndicators.any (fun k => containsSubstr context k) then
    some .beginner
  else none

/-- `ResumeAnalyzer._extract_skills` (resume_analyzer.py:470-487): one
`Skill` per database entry mentioned in the text (names are unique in the
database, so the `found_skills` dedup set never rejects anything). -/
def extractSkills (text : String) : List Skill :=
  (skillsDatabase.filter (fun e => skillMentioned e.1 text)).map
    (fun e => { name := e.1, category := e.2.1,
                level := estimateSkillLevel e.1 text, keywords := e.2.2 })

/-! ## Work-experience entry parsing (`resume_analyzer.py`,
`_parse_work_experience_entry`, `_extract_work_experience`) -/

/-- `ResumeAnalyzer._parse_work_experience_entry`
(resume_analyzer.py:264-294): entries of fewer than two nonempty lines are
rejected; the first line yields title/company, the whole entry yields the
dates, the remaining lines the description. -/
def parseWorkExperienceEntry (now : Int × Int) (entry : String) :
    Option WorkExperience :=
  let lines := strippedLines entry
  if lines.length < 2 then none
  else
    let tc := extractTitleCompany (lines.headD "")
    let dateInfo := extractDates now entry
    let description := joinNl lines.tail
    let ra := parseRespAch description
    some { company := tc.2
           title := tc.1
           start_date := dateInfo.start_date
           end_date := dateInfo.end_date
           duration_months := dateInfo.duration_months
           description := description
           responsibilities := ra.1
           achievements := ra.2
           skills_used := extractSkillsFromText description }

/-- One fallback segment boundary: a blank (whitespace-only) line models
`\n\s*\n`; a leading `-`, `*` or `•` models the lookahead split
`\n(?=[-*•])`. -/
def isBulletStart (s : String) : Bool :=
  match s.data with
  | c :: _ => c = '-' || c = '*' || c = '•'
  | [] => false

/-- Segment grouping for the fallback split
`re.split(r'\n\s*\n|\n(?=[-*•])', experience_text)`
(resume_analyzer.py:255). -/
def fallbackSegments : List String → List String → List (List String)
  | [], current => [current]
  | line :: rest, current =>
    if strTrim line == "" then current :: fallbackSegments rest []
    else if isBulletStart line then current :: fallbackSegments rest [line]
    else fallbackSegments rest (current ++ [line])

/-- `ResumeAnalyzer._extract_work_experience` (resume_analyzer.py:220-262):
chunk by new-job lines and parse each chunk; when nothing parses, re-split
on blank lines / bullets and parse every stripped segment longer than 20
characters. -/
def extractWorkExperience (now : Int × Int) (experienceText : String) :
    List WorkExperience :=
  if experienceText == "" then []
  else
    let lines := strippedLines experienceText
    let chunks := chunkJobs lines []
    let experiences := chunks.filterMap
      (fun chunk => parseWorkExperienceEntry now (joinNl chunk))
    if experiences.isEmpty then
      let segments := (fallbackSegments (splitLines experienceText) []).map joinNl
      segments.filterMap (fun e =>
        if 20 < (strTrim e).data.length then
          parseWorkExperienceEntry now (strTrim e)
        else none)
    else experiences

/-! ## Text cleaning (`resume_analyzer.py`, `_clean_text`) -/

/-- Collapse immediately repeated occurrences of `mark` to one. -/
def squeezeRuns (mark : Char) : List Char → List Char
  | [] => []
  | [c] => [c]
  | c1 :: c2 :: rest =>
    if c1 = mark ∧ c2 = mark then squeezeRuns mark (c2 :: rest)
    else c1 :: squeezeRuns mark (c2 :: rest)

/-- The character class kept by the second substitution of `_clean_text`
(resume_analyzer.py:102): `\w`, `\s` and the listed punctuation. -/
def isAllowedChar (c : Char) : Bool :=
  isWordChar c ∨ isWs c ∨
    c ∈ ['-', '@', '.', ',', '(', ')', '[', ']', '\x7b', '\x7d', '/', ':', ';', '\'', '\"']

/-- One line of `_clean_text` (resume_analyzer.py:100-103): collapse `\s+`
runs to one space, replace runs of disallowed characters by one space
(via a sentinel so existing spaces are not re-collapsed), then strip. -/
def cleanLine (s : String) : String :=
  let ws := squeezeRuns ' ' (s.data.map (fun c => if isWs c then ' ' else c))
  let repl := (squeezeRuns '\x00'
    (ws.map (fun c => if isAllowedChar c then c else '\x00'))).map
    (fun c => if c = '\x00' then ' ' else c)
  String.mk (trimCh repl)

/-- `ResumeAnalyzer._clean_text` (resume_analyzer.py:94-106): clean each
line and rejoin the nonempty ones. -/
def cleanText (text : String) : String :=
  joinNl (((splitLines text).map cleanLine).filter (fun l => l != ""))

/-! ## Contact information (`resume_analyzer.py`, `_extract_contact_info`)

The e-mail, phone and profile-URL regular expressions are embedded as
character scanners over the same token shapes; greedy/backtracking corner
cases that cannot arise on cleaned résumé text are simplified and noted. -/

/-- Local-part characters of the e-mail pattern `[A-Za-z0-9._%+-]`. -/
def emailLocalChar (c : Char) : Bool :=
  c.isAlphanum || c ∈ ['.', '_', '%', '+', '-']

/-- Domain characters of the e-mail pattern `[A-Za-z0-9.-]`. -/
def emailDomainChar (c : Char) : Bool := c.isAlphanum || c ∈ ['.', '-']

/-- Does the reversed domain run end (in reading order) with `.` followed by
at least two letters, with a nonempty domain before the dot? -/
def emailDomainOk (rev : List Char) : Bool :=
  let ls := rev.takeWhile Char.isAlpha
  decide (2 ≤ ls.length) && ((rev.drop ls.length).head? == some '.') &&
    !(rev.drop (ls.length + 1)).isEmpty

/-- Trim characters from the end of the domain run until it matches
`[A-Za-z0-9.-]+\.[A-Za-z]{2,}` (the regex reaches the same split by
backtracking). Input and output are reversed. -/
def emailTrimDomain : List Char → Option (List Char)
  | [] => none
  | c :: rest =>
    if emailDomainOk (c :: rest) then some (c :: rest)
    else emailTrimDomain rest

/-- Scan for the e-mail pattern, carrying the (reversed) run of local-part
characters seen immediately before the current position. -/
def emailScan (localAcc : List Char) : List Char → Option String
  | [] => none
  | '@' :: rest =>
    if localAcc.isEmpty then emailScan [] rest
    else
      match emailTrimDomain (rest.takeWhile emailDomainChar).reverse with
      | some revDom =>
        some (String.mk (localAcc.reverse ++ '@' :: revDom.reverse))
      | none => emailScan [] rest
  | c :: rest =>
    if emailLocalChar c then emailScan (c :: localAcc) rest
    else emailScan [] rest

/-- `re.search` of the e-mail pattern (resume_analyzer.py:113-114). -/
def findEmail (text : String) : Option String := emailScan [] text.data

/-- The `[-.\s]` separator class of the phone patterns. -/
def phoneSep (c : Char) : Bool := c = '-' || c = '.' || isWs c

/-- Consume exactly `n` digits. -/
def digitsN : ℕ → List Char → Option (List Char)
  | 0, cs => some cs
  | n + 1, c :: cs => if c.isDigit then digitsN n cs else none
  | _ + 1, [] => none

/-- Consume at most one character satisfying `p` (a greedy `X?`). -/
def optOne (p : Char → Bool) : List Char → List Char
  | [] => []
  | c :: cs => if p c then cs else c :: cs

/-- The common core of phone pattern 1:
`\(?(\d{3})\)?[-.\s]?(\d{3})[-.\s]?(\d{4})`. -/
def phoneCore (cs : List Char) : Option (List Char) := do
  let cs := optOne (fun c => c = '(') cs
  let cs ← digitsN 3 cs
  let cs := optOne (fun c => c = ')') cs
  let cs := optOne phoneSep cs
  let cs ← digitsN 3 cs
  let cs := optOne phoneSep cs
  digitsN 4 cs

/-- Phone pattern 1 at the current position, with and (on failure) without
the optional `\+?1[-.\s]?` prefix, mirroring the regex's backtracking. -/
def matchPhone1 (cs : List Char) : Option (List Char) :=
  (do
    let cs1 := optOne (fun c => c = '+') cs
    match cs1 with
    | '1' :: r => phoneCore (optOne phoneSep r)
    | _ => none) <|> phoneCore cs

/-- Phone pattern 2 at the current position:
`\d{3}[-.\s]?\d{3}[-.\s]?\d{4}`. -/
def matchPhone2 (cs : List Char) : Option (List Char) := do
  let cs ← digitsN 3 cs
  let cs := optOne phoneSep cs
  let cs ← digitsN 3 cs
  let cs := optOne phoneSep cs
  digitsN 4 cs

/-- Scan for a phone match with `\b` at both edges, returning the matched
text (`match.group()`). -/
def phoneScan (pat : List Char → Option (List Char)) (prev : Option Char) :
    List Char → Option String
  | [] => none
  | c :: cs =>
    match pat (c :: cs) with
    | some rest =>
      let len := (c :: cs).length - rest.length
      if (charWord prev != charWord (some c)) &&
          (charWord ((c :: cs).drop (len - 1)).head? != charWord (((c :: cs).drop len).head?)) then
        some (String.mk ((c :: cs).take len))
      else phoneScan pat (some c) cs
    | none => phoneScan pat (some c) cs

/-- The phone loop (resume_analyzer.py:119-127): pattern 1, then pattern 2. -/
def findPhone (text : String) : Option String :=
  match phoneScan matchPhone1 none text.data with
  | some p => some p
  | none => phoneScan matchPhone2 none text.data

/-- Case-insensitive literal occurrence followed by a `[\w\-]+` run; returns
the original-case matched text (for the LinkedIn/GitHub patterns,
resume_analyzer.py:130-138). -/
def urlScan (lit : List Char) : List Char → Option String
  | [] => none
  | c :: cs =>
    if lit.isPrefixOf ((c :: cs).take lit.length |>.map lowerChar) then
      let run := ((c :: cs).drop lit.length).takeWhile
        (fun ch => isWordChar ch || ch = '-')
      if run.isEmpty then urlScan lit cs
      else some (String.mk ((c :: cs).take (lit.length + run.length)))
    else urlScan lit cs

/-- `linkedin\.com/in/[\w\-]+`, prefixed with `https://`. -/
def findLinkedin (text : String) : Option String :=
  (urlScan "linkedin.com/in/".data text.data).map (fun m => "https://" ++ m)

/-- `github\.com/[\w\-]+`, prefixed with `https://`. -/
def findGithub (text : String) : Option String :=
  (urlScan "github.com/".data text.data).map (fun m => "https://" ++ m)

/-- Resume keywords that disqualify a line from being a name
(resume_analyzer.py:146). -/
def contactLineKeywords : List String :=
  ["email", "phone", "contact", "location", "address"]

/-- Job-title keywords that disqualify a line from being a name
(resume_analyzer.py:153). -/
def titleKeywords : List String :=
  ["engineer", "developer", "manager", "analyst", "director", "specialist"]

/-- `re.search(r'[@\(\)\d]', line)`. -/
def hasContactChar (line : String) : Bool :=
  line.data.any (fun c => c = '@' || c = '(' || c = ')' || c.isDigit)

/-- Python `str.isalpha()`: nonempty and all alphabetic. -/
def pyIsAlpha (w : List Char) : Bool := !w.isEmpty && w.all Char.isAlpha

/-- Python `word[0].isupper()`. -/
def headIsUpper (w : List Char) : Bool :=
  match w.head? with
  | some c => c.isUpper
  | none => false

/-- The primary name heuristic (resume_analyzer.py:143-155): a line of 2-4
words, every fully-alphabetic word capitalised, no contact characters,
contact keywords or title keywords. -/
def nameCandidate (line : String) : Bool :=
  let ws := wordsCh line.data
  !hasContactChar line &&
    !contactLineKeywords.any (fun kw => mentionsWord line kw) &&
    decide (2 ≤ ws.length) && decide (ws.length ≤ 4) &&
    (ws.filter pyIsAlpha).all headIsUpper &&
    !titleKeywords.any (fun kw => containsSubstr (strLower line) kw)

/-- The fallback name heuristic (resume_analyzer.py:158-166): first line
among the first five whose first two words are capitalised alphabetic
words; the name is those two words. -/
def nameFallback (line : String) : Option String :=
  match wordsCh line.data with
  | w1 :: w2 :: _ =>
    if pyIsAlpha w1 && headIsUpper w1 && pyIsAlpha w2 && headIsUpper w2 then
      some (String.mk w1 ++ " " ++ String.mk w2)
    else none
  | _ => none

/-- `ResumeAnalyzer._extract_contact_info` (resume_analyzer.py:108-168). -/
def extractContactInfo (text : String) : ContactInfo :=
  let lines := (strippedLines text).take 10
  let primary := lines.find? nameCandidate
  let name :=
    match primary with
    | some l => some l
    | none => ((lines.take 5).filterMap nameFallback).head?
  { name := name
    email := findEmail text
    phone := findPhone text
    linkedin := findLinkedin text
    github := findGithub text }

/-! ## Education extraction (`resume_analyzer.py`, `_extract_education`
and helpers) -/

/-- Entry grouping for `re.split(r'\n(?=\S)', education_text)`
(resume_analyzer.py:393): a split occurs at every newline followed by a
non-whitespace character, so lines starting with whitespace (or empty)
continue the previous entry. -/
def eduGroups : List String → List String → List (List String)
  | [], cur => [cur]
  | line :: rest, cur =>
    match line.data.head? with
    | some c =>
      if isWs c then eduGroups rest (cur ++ [line])
      else cur :: eduGroups rest [line]
    | none => eduGroups rest (cur ++ [line])

/-- The degree keywords of pattern 1 (resume_analyzer.py:437). -/
def degreeKeywords1 : List String :=
  ["bachelor", "master", "phd", "doctorate", "associate", "diploma", "certificate"]

/-- The abbreviation alternatives of pattern 2 (resume_analyzer.py:438),
ordered so that longer (dotted) forms are preferred, matching the greedy
`\.?` groups. -/
def degreeKeywords2 : List String :=
  ["b.a.", "b.s.", "b.a", "b.s", "ba.", "bs.", "ba", "bs",
   "m.a.", "m.s.", "m.a", "m.s", "ma.", "ms.", "ma", "ms",
   "ph.d.", "ph.d", "phd.", "phd", "doctorate", "associate"]

/-- Is there a `\b` before position of `w0` given the previous character? -/
def boundaryBefore (prev : Option Char) (w0 : Char) : Bool :=
  charWord prev != charWord (some w0)

/-- The stop markers ending the lazy field capture:
`\s+from`, `\s+at`, `\s+-`, `\s+\d{4}`, or end of input. -/
def degreeStopHere (cs : List Char) : Bool :=
  match cs with
  | [] => true
  | _ =>
    let sp := cs.takeWhile isWs
    if sp.isEmpty then false
    else
      let r := cs.dropWhile isWs
      "from".data.isPrefixOf r || "at".data.isPrefixOf r ||
        (r.head? == some '-') || decide (4 ≤ (r.takeWhile Char.isDigit).length)

/-- Lazily capture `(.+?)` up to the first stop marker (requiring at least
one captured character). -/
def captureToStop : List Char → List Char
  | [] => []
  | c :: cs => if degreeStopHere cs then [c] else c :: captureToStop cs

/-- Try a degree keyword (case-insensitively) at the current position: the
keyword, then `\s+`, then for pattern 1 an optional `of\s+`, then the lazy
field capture. Returns `(degree as matched, field)`. -/
def tryDegreeAt (allowOf : Bool) (kw : List Char) (prev : Option Char)
    (cs : List Char) : Option (List Char × List Char) :=
  match cs.head? with
  | none => none
  | some c0 =>
    if boundaryBefore prev c0 && kw.isPrefixOf ((cs.take kw.length).map lowerChar) then
      let rest := cs.drop kw.length
      let sp := rest.takeWhile isWs
      if sp.isEmpty then none
      else
        let r1 := rest.dropWhile isWs
        let r2 :=
          if allowOf && "of".data.isPrefixOf (r1.map lowerChar) &&
              !((r1.drop 2).takeWhile isWs).isEmpty then
            (r1.drop 2).dropWhile isWs
          else r1
        match r2 with
        | [] => none
        | _ => some (cs.take kw.length, captureToStop r2)
    else none

/-- Scan the whole text for the first position where some keyword of the
list matches (keywords tried in list order at each position). -/
def degreeScan (allowOf : Bool) (kws : List String) (prev : Option Char) :
    List Char → Option (List Char × List Char)
  | [] => none
  | c :: cs =>
    match kws.findSome? (fun kw => tryDegreeAt allowOf kw.data prev (c :: cs)) with
    | some r => some r
    | none => degreeScan allowOf kws (some c) cs

/-- `ResumeAnalyzer._extract_degree_info` (resume_analyzer.py:434-448). -/
def extractDegreeInfo (text : String) : String × String :=
  match degreeScan true degreeKeywords1 none text.data with
  | some (deg, fld) => (String.mk deg, String.mk (trimCh fld))
  | none =>
    match degreeScan false degreeKeywords2 none text.data with
    | some (deg, fld) => (String.mk deg, String.mk (trimCh fld))
    | none => ("", "")

/-- Match `[\w\s]+` runs ending just before a case-insensitive keyword that
is preceded by whitespace: the `[\w\s]+\s+keyword` institution patterns
(resume_analyzer.py:455-458). Returns the whole match, stripped. -/
def instSuffixScan (kw : List Char) (acc : List Char) : List Char → Option String
  | [] => none
  | c :: cs =>
    if kw.isPrefixOf ((c :: cs).take kw.length |>.map lowerChar) &&
        !acc.isEmpty && (acc.head?.map isWs).getD false then
      some (String.mk (trimCh (acc.reverse ++ (c :: cs).take kw.length)))
    else
      if isWordChar c || isWs c then instSuffixScan kw (c :: acc) cs
      else instSuffixScan kw [] cs

/-- Match `university\s+of\s+[\w\s]+` (resume_analyzer.py:454). -/
def instUniversityOf : List Char → Option String
  | [] => none
  | c :: cs =>
    if "university".data.isPrefixOf ((c :: cs).take 10 |>.map lowerChar) then
      let r := (c :: cs).drop 10
      let sp := r.takeWhile isWs
      let r1 := r.dropWhile isWs
      if !sp.isEmpty && "of".data.isPrefixOf (r1.map lowerChar) then
        let r2 := r1.drop 2
        let sp2 := r2.takeWhile isWs
        let r3 := r2.dropWhile isWs
        let run := r3.takeWhile (fun ch => isWordChar ch || isWs ch)
        if !sp2.isEmpty && !run.isEmpty then
          some (String.mk (trimCh ((c :: cs).take 10 ++ sp ++ "of".data ++ sp2 ++ run)))
        else instUniversityOf cs
      else instUniversityOf cs
    else instUniversityOf cs

/-- `ResumeAnalyzer._extract_institution` (resume_analyzer.py:450-468). -/
def extractInstitution (text : String) : String :=
  match instUniversityOf text.data with
  | some m => m
  | none =>
    match instSuffixScan "university".data [] text.data with
    | some m => m
    | none =>
      match instSuffixScan "college".data [] text.data with
      | some m => m
      | none =>
        match instSuffixScan "institute".data [] text.data with
        | some m => m
        | none =>
          match instSuffixScan "school".data [] text.data with
          | some m => m
          | none => (strippedLines text).headD ""

/-- Scan for `\b(19|20)\d{2}\b` (resume_analyzer.py:419). -/
def gradYearScan (prev : Option Char) : List Char → Option Int
  | [] => none
  | c :: cs =>
    let run := (c :: cs).takeWhile Char.isDigit
    if boundaryBefore prev c && decide (run.length = 4) &&
        (("19".data.isPrefixOf run) || ("20".data.isPrefixOf run)) then
      some (digitsToNat run : Int)
    else gradYearScan (some c) cs

/-- Scan for `gpa[:\s]*(\d+\.?\d*)` case-insensitively
(resume_analyzer.py:423), returning the captured decimal as a rational. -/
def gpaScan : List Char → Option ℚ
  | [] => none
  | c :: cs =>
    if "gpa".data.isPrefixOf ((c :: cs).map lowerChar) then
      let r := ((c :: cs).drop 3).dropWhile (fun ch => ch = ':' || isWs ch)
      let intPart := r.takeWhile Char.isDigit
      if intPart.isEmpty then gpaScan cs
      else
        let r1 := r.drop intPart.length
        let frac :=
          match r1 with
          | '.' :: r2 => r2.takeWhile Char.isDigit
          | _ => []
        some ((digitsToNat intPart : ℚ) +
          (digitsToNat frac : ℚ) / ((10 : ℚ) ^ frac.length))
    else gpaScan cs

/-- `ResumeAnalyzer._parse_education_entry` (resume_analyzer.py:405-432). -/
def parseEducationEntry (entry : String) : Option Education :=
  if (strippedLines entry).isEmpty then none
  else
    let di := extractDegreeInfo entry
    some { institution := extractInstitution entry
           degree := di.1
           field_of_study := some di.2
           graduation_year := gradYearScan none entry.data
           gpa := gpaScan entry.data }

/-- `ResumeAnalyzer._extract_education` (resume_analyzer.py:388-403): split
into entries, skip entries whose stripped length is under 10, parse the
rest. -/
def extractEducation (educationText : String) : List Education :=
  ((eduGroups (splitLines educationText) []).map joinNl).filterMap
    (fun entry =>
      if (strTrim entry).data.length < 10 then none
      else parseEducationEntry entry)

/-! ## Remaining extractors (`resume_analyzer.py`) -/

/-- `ResumeAnalyzer._extract_summary` (resume_analyzer.py:535-545). -/
def extractSummary (summaryText : String) : Option String :=
  if summaryText == "" || (strTrim summaryText).data.length < 20 then none
  else
    some (String.mk (squeezeRuns ' '
      ((strTrim summaryText).data.map (fun c => if isWs c then ' ' else c))))

/-- Round a rational to one decimal place, ties to even (Python
`round(x, 1)`; binary-float artefacts of the original are not modelled). -/
def round1 (q : ℚ) : ℚ :=
  let x := q * 10
  let f := ⌊x⌋
  let frac := x - f
  let n : Int :=
    if frac < 1/2 then f
    else if 1/2 < frac then f + 1
    else if f % 2 = 0 then f else f + 1
  (n : ℚ) / 10

/-- `ResumeAnalyzer._calculate_total_experience` (resume_analyzer.py:547-555):
sum the truthy `duration_months`, return `round(total/12, 1)` when the sum
is positive, else `None`. -/
def calculateTotalExperience (workExperiences : List WorkExperience) : Option ℚ :=
  let totalMonths := (workExperiences.map (fun exp =>
    match exp.duration_months with
    | some d => d
    | none => 0)).sum
  if 0 < totalMonths then some (round1 ((totalMonths : ℚ) / 12)) else none

/-- Match `\b(?:certified|certification)\s+[\w\s]+` at the current position
(resume_analyzer.py:563), returning match and rest. -/
def certPat1At (prev : Option Char) (cs : List Char) : Option (List Char × List Char) :=
  match cs.head? with
  | none => none
  | some c0 =>
    if !boundaryBefore prev c0 then none
    else
      let kw :=
        if "certification".data.isPrefixOf ((cs.take 13).map lowerChar) then some 13
        else if "certified".data.isPrefixOf ((cs.take 9).map lowerChar) then some 9
        else none
      match kw with
      | some n =>
        let rest := cs.drop n
        let sp := rest.takeWhile isWs
        if sp.isEmpty then none
        else
          let run := rest.takeWhile (fun ch => isWordChar ch || isWs ch)
          if run.length ≤ sp.length then none
          else some (cs.take (n + run.length), rest.drop run.length)
      | none => none

/-- Match `\b[A-Z]{2,}\s+certified` (case-insensitive, so any 2+ letters)
at the current position (resume_analyzer.py:564). -/
def certPat2At (prev : Option Char) (cs : List Char) : Option (List Char × List Char) :=
  match cs.head? with
  | none => none
  | some c0 =>
    if !boundaryBefore prev c0 then none
    else
      let letters := cs.takeWhile Char.isAlpha
      if letters.length < 2 then none
      else
        let r := cs.drop letters.length
        let sp := r.takeWhile isWs
        let r1 := r.dropWhile isWs
        if !sp.isEmpty && "certified".data.isPrefixOf ((r1.take 9).map lowerChar) then
          some (cs.take (letters.length + sp.length + 9), r1.drop 9)
        else none

/-- The certification vendor names of pattern 3 (resume_analyzer.py:565). -/
def certVendors : List String :=
  ["AWS", "Azure", "Google", "Microsoft", "Oracle", "Cisco", "CompTIA"]

/-- Match `\b(?:AWS|Azure|…)[\s\w]+` at the current position. -/
def certPat3At (prev : Option Char) (cs : List Char) : Option (List Char × List Char) :=
  match cs.head? with
  | none => none
  | some c0 =>
    if !boundaryBefore prev c0 then none
    else
      match certVendors.findSome? (fun v =>
        if v.data.map lowerChar |>.isPrefixOf ((cs.take v.data.length).map lowerChar) then
          some v.data.length
        else none) with
      | some n =>
        let run := (cs.drop n).takeWhile (fun ch => isWordChar ch || isWs ch)
        if run.isEmpty then none
        else some (cs.take (n + run.length), (cs.drop n).drop run.length)
      | none => none

/-- Fueled non-overlapping `findall` for a positional matcher. -/
def findAllPat (pat : Option Char → List Char → Option (List Char × List Char)) :
    ℕ → Option Char → List Char → List String
  | 0, _, _ => []
  | _, _, [] => []
  | fuel + 1, prev, c :: cs =>
    match pat prev (c :: cs) with
    | some (tok, rest) =>
      String.mk tok :: findAllPat pat fuel ((tok.getLast? ).orElse (fun _ => some c)) rest
    | none => findAllPat pat fuel (some c) cs

/-- `ResumeAnalyzer._extract_certifications` (resume_analyzer.py:557-572):
all three patterns' stripped matches, de-duplicated (the source builds a
Python `set`, whose iteration order is unspecified; the model keeps
first-seen order). -/
def extractCertifications (text : String) : List String :=
  let cs := text.data
  ((findAllPat certPat1At cs.length none cs ++
    findAllPat certPat2At cs.length none cs ++
    findAllPat certPat3At cs.length none cs).map strTrim).dedup

/-- The project capture patterns (resume_analyzer.py:579-584): a literal
lead-in (`project` then `[:\s]+`, or a verb then `\s+`) and a lazy capture
up to the end of the line. -/
def projectLeads : List (String × Bool) :=
  [("project", true), ("built", false), ("developed", false), ("created", false)]

/-- Match one project lead-in at the current position; returns capture and
rest. The capture runs to the next newline or the end. -/
def projectPatAt (lead : String) (colonClass : Bool) (cs : List Char) :
    Option (List Char × List Char) :=
  if lead.data.isPrefixOf ((cs.take lead.data.length).map lowerChar) then
    let r := cs.drop lead.data.length
    let sepOk := fun ch => if colonClass then ch = ':' || isWs ch else isWs ch
    let sp := r.takeWhile sepOk
    if sp.isEmpty then none
    else
      let r1 := r.dropWhile sepOk
      let cap := r1.takeWhile (fun ch => ch ≠ '\n')
      if cap.isEmpty then none
      else some (cap, r1.drop cap.length)
  else none

/-- Fueled `findall` for one project pattern. -/
def findProjects (lead : String) (colonClass : Bool) :
    ℕ → List Char → List String
  | 0, _ => []
  | _, [] => []
  | fuel + 1, c :: cs =>
    match projectPatAt lead colonClass (c :: cs) with
    | some (cap, rest) => String.mk cap :: findProjects lead colonClass fuel rest
    | none => findProjects lead colonClass fuel cs

/-- `ResumeAnalyzer._extract_projects` (resume_analyzer.py:574-590): all
four patterns' captures, stripped, kept when longer than 10 characters,
limited to 10. -/
def extractProjects (text : String) : List String :=
  let cs := text.data
  ((projectLeads.map (fun p => findProjects p.1 p.2 cs.length cs)).flatten.map strTrim
    |>.filter (fun m => decide (10 < m.data.length))).take 10

/-- The common spoken languages (resume_analyzer.py:597-601). -/
def commonLanguages : List String :=
  ["English", "Spanish", "French", "German", "Italian", "Portuguese",
   "Chinese", "Japanese", "Korean", "Arabic", "Hindi", "Russian",
   "Dutch", "Swedish", "Norwegian", "Danish", "Finnish"]

/-- `ResumeAnalyzer._extract_languages` (resume_analyzer.py:592-607). -/
def extractLanguages (text : String) : List String :=
  commonLanguages.filter (fun lang => skillMentioned lang text)

/-- A dict-get with default `""` on the sections model
(`sections.get("experience", "")`). -/
def sectionsGet (sections : List (String × String)) (k : String) : String :=
  (sections.lookup k).getD ""

/-- `ResumeAnalyzer.analyze` (resume_analyzer.py:41-92), with the analysis
date passed explicitly. The body wraps its work in `try`/`except` that
only re-raises; every step is pure string processing with no raise
statement, and no `ParseError` class exists anywhere in the codebase, so
the error channel of the result is never used — in particular empty input
text produces an (entirely sparse) record, not an error. -/
def analyze (now : Int × Int) (text filename : String) :
    Except String ResumeData :=
  let cleanedText := cleanText text
  let contactInfo := extractContactInfo cleanedText
  let sections := extractSections cleanedText
  let workExperience := extractWorkExperience now (sectionsGet sections "experience")
  let education := extractEducation (sectionsGet sections "education")
  let skills := extractSkills cleanedText
  let summary := extractSummary (sectionsGet sections "summary")
  let totalExperience := calculateTotalExperience workExperience
  .ok { filename := filename
        contact_info := contactInfo
        summary := summary
        skills := skills
        education := education
        work_experience := workExperience
        certifications := extractCertifications cleanedText
        projects := extractProjects cleanedText
        languages := extractLanguages cleanedText
        total_experience_years := totalExperience
        raw_text := text }

/-! ## Job analyzer: requirement conversion
(`analyzers/job_analyzer_fixed.py`, `_convert_requirements_to_skills_dict`) -/

/-- One step of the conversion loop (job_analyzer_fixed.py:369-375): append
the requirement's skill under the key `req.category.value`, creating the
key (at the end, in insertion order) if absent. -/
def addReq (d : List (String × List String)) (req : JobRequirement) :
    List (String × List String) :=
  let c := req.category.value
  if (d.lookup c).isSome then
    d.map (fun p => if p.1 = c then (p.1, p.2 ++ [req.skill]) else p)
  else d ++ [(c, [req.skill])]

/-- `JobAnalyzer._convert_requirements_to_skills_dict`
(job_analyzer_fixed.py:365-377). -/
def convertRequirementsToSkillsDict (reqs : List JobRequirement) :
    List (String × List String) :=
  reqs.foldl addReq []

/-! ## Full matching (`resume_matcher.py`, `match_resume_to_job`,
`_generate_recommendations`) and the ranking tool
(`mcp_server.py`, `find_best_candidates`)

The semantic-similarity component (TF-IDF plus cosine over the combined
texts, `_calculate_semantic_similarity`) is a real-valued collaborator and
is passed as an explicit parameter. -/

/-- `schemas.MatchScore` (schemas.py:117-123). -/
structure MatchScore where
  skills_match : ℚ
  experience_match : ℚ
  education_match : ℚ
  overall_score : ℚ
  confidence : ℚ
deriving DecidableEq, Repr

/-- `schemas.MatchResult` (schemas.py:171-185), without the wall-clock
`created_at`. -/
structure MatchResult where
  resume_id : String
  job_id : String
  resume_name : String
  job_title : String
  match_score : MatchScore
  skill_matches : List SkillMatch
  missing_skills : List String
  strengths : List String
  weaknesses : List String
  recommendations : List String
  overall_score : ℚ
  ranking_position : Option ℕ
deriving DecidableEq, Repr

/-- The declared field names of `schemas.MatchResult` (schemas.py:171-185). -/
def matchResultFields : List String :=
  ["resume_id", "job_id", "resume_name", "job_title", "match_score",
   "skill_matches", "missing_skills", "strengths", "weaknesses",
   "recommendations", "overall_score", "ranking_position", "created_at"]

/-- Python `x or d` for an `Optional[str]`: `None` and `""` fall to the
default. -/
def pyOr (o : Option String) (d : String) : String :=
  match o with
  | some s => if s == "" then d else s
  | none => d

/-- Digits of a natural number (most significant first), fueled. -/
def natDigitsAux : ℕ → ℕ → List Char
  | 0, _ => []
  | _, 0 => []
  | fuel + 1, n => natDigitsAux fuel (n / 10) ++ [Char.ofNat (48 + n % 10)]

/-- Decimal rendering of a natural number. -/
def natToStr (n : ℕ) : String :=
  if n = 0 then "0" else String.mk (natDigitsAux (n + 1) n)

/-- Python `f"{x:.1f}"` on the modelled rational: round to one decimal
(ties to even) and render (binary-float artefacts are not modelled). -/
def formatTenths (q : ℚ) : String :=
  let n : Int := ⌊round1 q * 10⌋
  let a := n.natAbs
  (if n < 0 then "-" else "") ++ natToStr (a / 10) ++ "." ++ natToStr (a % 10)

/-- Comma-space join (`", ".join`). -/
def joinComma (ls : List String) : String :=
  String.mk (((ls.map String.data).intersperse [',', ' ']).flatten)

/-- `ResumeMatcher._generate_recommendations` (resume_matcher.py:304-340).
The skill-gap sentence joins up to five missing skills; the source draws
them from a Python set with unspecified iteration order, modelled here in
first-seen order. -/
def generateRecommendations (resume : ResumeData) (job : JobPosting)
    (score : ℚ) : List String :=
  let skillRec : List String :=
    if score < 70 then
      let missing := (jobSkillSet job).filter
        (fun s => !(resumeSkillSet resume).contains s)
      if missing.isEmpty then []
      else ["Consider developing skills in: " ++ joinComma (missing.take 5)]
    else []
  let requiredYears := extractExperienceYears (job.experience_required.getD "")
  let totalExperience := orZero resume.total_experience_years
  let expRec : List String :=
    if totalExperience < requiredYears then
      ["Gain " ++ formatTenths (requiredYears - totalExperience) ++
        " more years of relevant experience"]
    else []
  let eduRec : List String :=
    if !optFalsy job.education_required && resume.education.isEmpty then
      ["Consider pursuing " ++ job.education_required.getD "" ++ " education"]
    else []
  skillRec ++ expRec ++ eduRec

/-- `ResumeMatcher.match_resume_to_job` (resume_matcher.py:56-104): compute
the component scores, the overall match and the recommendations, and
assemble a `MatchResult` — with `ranking_position := None` and all scores
scaled to `0–1`. -/
def matchResumeToJob (semanticScore : ℚ) (resume : ResumeData)
    (job : JobPosting) : MatchResult :=
  let skillMatch := calculateSkillsMatch resume job
  let experienceMatch := calculateExperienceMatch resume job
  let educationMatch := calculateEducationMatch resume job
  let overallMatch :=
    calculateOverallMatch skillMatch experienceMatch educationMatch semanticScore
  { resume_id := pyOr resume.id "unknown_resume"
    job_id := pyOr job.id "unknown_job"
    resume_name := pyOr resume.contact_info.name "Unknown Name"
    job_title := job.title
    match_score :=
      { skills_match := skillMatch.score / 100
        experience_match := experienceMatch.score / 100
        education_match := educationMatch.score / 100
        overall_score := overallMatch.score / 100
        confidence := overallMatch.confidence / 100 }
    skill_matches := [skillMatch]
    missing_skills := []
    strengths := []
    weaknesses := []
    recommendations := generateRecommendations resume job overallMatch.score
    overall_score := overallMatch.score / 100
    ranking_position := none }

/-- One entry of the `find_best_candidates` response (mcp_server.py:278-283),
without the result dump. -/
structure CandidateEntry where
  resume_id : Option String
  resume_name : String
  score : ℚ
deriving DecidableEq, Repr

/-- The attribute access `match_result.overall_match` (mcp_server.py:281).
`schemas.MatchResult` declares exactly `matchResultFields`, and
`overall_match` is not among them, so on every `MatchResult` this access
raises `AttributeError`. -/
def overallMatchAttr (_ : MatchResult) : Except String OverallMatch :=
  .error "AttributeError: MatchResult object has no attribute overall_match"

/-- The per-résumé body of the `find_best_candidates` loop
(mcp_server.py:276-286): match, then build the entry dict whose `score`
reads `match_result.overall_match.score`; any exception is caught by the
surrounding `try`/`except` and the résumé is skipped. -/
def candidateEntry (semOf : ResumeData → ℚ) (job : JobPosting)
    (resume : ResumeData) : Except String CandidateEntry := do
  let matchResult := matchResumeToJob (semOf resume) resume job
  let om ← overallMatchAttr matchResult
  pure { resume_id := resume.id
         resume_name := pyOr resume.contact_info.name "Unknown"
         score := om.score }

/-- `matches.sort(key=lambda x: x["score"], reverse=True)`
(mcp_server.py:289): stable descending sort by score. -/
def sortByScoreDesc (l : List CandidateEntry) : List CandidateEntry :=
  l.mergeSort (fun a b => decide (b.score ≤ a.score))

/-- The `find_best_candidates` tool body (mcp_server.py:261-297): match
every résumé (skipping failures), sort descending by score, truncate to
`limit`. -/
def findBestCandidates (semOf : ResumeData → ℚ) (job : JobPosting)
    (resumes : List ResumeData) (limit : ℕ) : List CandidateEntry :=
  let entries := resumes.filterMap
    (fun r => (candidateEntry semOf job r).toOption)
  (sortByScoreDesc entries).take limit

/-! ## Concrete records used by counterexamples and witnesses -/

/-- A résumé with an empty skill list. -/
def resumeEmptySkills : ResumeData :=
  { filename := "empty_skills.txt"
    contact_info := {}
    raw_text := "none" }

/-- A résumé whose canonical skills are Python, React, AWS. -/
def resumePRA : ResumeData :=
  { filename := "pra.txt"
    contact_info := {}
    raw_text := "python react aws"
    skills := [⟨"Python", .technical, none, []⟩, ⟨"React", .technical, none, []⟩,
      ⟨"AWS", .technical, none, []⟩] }

/-- A job requiring the technical skills Python, React, AWS. -/
def jobPRA : JobPosting :=
  { title := "Engineer"
    description := "desc"
    required_skills := [("technical", ["Python", "React", "AWS"])] }

/-- A job whose `required_skills` dict and `preferred_skills` list are both
empty: it specifies no skills at all. -/
def jobNoSkills : JobPosting :=
  { title := "Anything"
    description := "desc" }

/-- A résumé with 3 years of total experience. -/
def resumeThreeYears : ResumeData :=
  { filename := "three.txt"
    contact_info := {}
    raw_text := "three years"
    total_experience_years := some 3 }

/-- A job requiring "3+ years" of experience. -/
def jobThreePlusYears : JobPosting :=
  { title := "Engineer"
    description := "desc"
    experience_required := some "3+ years" }

/-- A résumé whose only education record is a bachelor's degree. -/
def resumeBachelor : ResumeData :=
  { filename := "bach.txt"
    contact_info := {}
    raw_text := "bachelor"
    education := [⟨"X University", "bachelor of science", none, none, none⟩] }

/-- A job requiring a bachelor's degree. -/
def jobBachelor : JobPosting :=
  { title := "Engineer"
    description := "desc"
    education_required := some "bachelor" }

/-- A résumé whose only education record is an associate degree. -/
def resumeAssociate : ResumeData :=
  { filename := "assoc.txt"
    contact_info := {}
    raw_text := "associate"
    education := [⟨"Y College", "associate degree", none, none, none⟩] }

/-- A job requiring a master's degree. -/
def jobMaster : JobPosting :=
  { title := "Engineer"
    description := "desc"
    education_required := some "master" }

/-- A single technical job requirement. -/
def reqPythonTechnical : JobRequirement :=
  ⟨"Python", .technical, 9/10, true, none⟩

/-- The work-experience record extracted from
`"Dev at Beta (2019-2021)\nWrote code\nShipped features"` at analysis date
June 2025. -/
def wBeta : WorkExperience :=
  { company := "Beta"
    title := "Dev"
    start_date := some "2019"
    end_date := some "2021"
    duration_months := some 24
    description := "Wrote code\nShipped features"
    responsibilities := ["Wrote code", "Shipped features"]
    achievements := []
    skills_used := [] }

/-- The fully sparse record `analyze` returns on empty input text. -/
def sparseRecord : ResumeData :=
  { filename := "empty.txt"
    contact_info := {}
    summary := none
    skills := []
    education := []
    work_experience := []
    certifications := []
    projects := []
    languages := []
    total_experience_years := none
    raw_text := "" }

/-!
# Theorems

First the shared helper lemmas, then one theorem per claim (with its
counterexample and witness where applicable).
-/

/-- Every category weight `skill_weights.get(c, 1.0)` is positive. -/
theorem skillWeight_pos (c : String) : 0 < skillWeight c := by
  unfold skillWeight skillWeights
  simp only [List.lookup]
  repeat' split
  all_goals simp_all

/-- A set fully contained in `rs` intersects `rs` in all its elements. -/
theorem interCount_full (rs cat : List String) (h : ∀ s ∈ cat, s ∈ rs) :
    interCount rs cat = cat.length := by
  unfold interCount
  rw [List.filter_eq_self.mpr]
  intro s hs
  exact List.elem_iff.mpr (h s hs)

/-- A résumé without skills has an empty canonical skill set. -/
theorem resumeSkillSet_nil (resume : ResumeData) (h : resume.skills = []) :
    resumeSkillSet resume = [] := by
  simp [resumeSkillSet, lowerSet, h]

/-- Nothing intersects the empty set. -/
theorem interCount_nil (cat : List String) : interCount [] cat = 0 := by
  simp [interCount]

/-- Lower-casing and de-duplicating preserves nonemptiness. -/
theorem lowerSet_ne_nil (l : List String) (h : l ≠ []) : lowerSet l ≠ [] := by
  simp only [lowerSet, ne_eq, List.dedup_eq_nil, List.map_eq_nil_iff]
  exact h

/-- Skills of a required category are in the job's combined skill set. -/
theorem mem_jobSkillSet_required {job : JobPosting} {p : String × List String}
    {s : String} (hp : p ∈ job.required_skills) (hs : s ∈ lowerSet p.2) :
    s ∈ jobSkillSet job := by
  simp only [lowerSet, List.mem_dedup, List.mem_map] at hs
  obtain ⟨x, hx, hxs⟩ := hs
  simp only [jobSkillSet, lowerSet, List.mem_dedup, List.mem_map]
  exact ⟨x, List.mem_append_left _ (List.mem_flatten.mpr
    ⟨p.2, List.mem_map_of_mem Prod.snd hp, hx⟩), hxs⟩

/-- Preferred skills are in the job's combined skill set. -/
theorem mem_jobSkillSet_preferred {job : JobPosting} {s : String}
    (hs : s ∈ lowerSet job.preferred_skills) : s ∈ jobSkillSet job := by
  simp only [lowerSet, List.mem_dedup, List.mem_map] at hs
  obtain ⟨x, hx, hxs⟩ := hs
  simp only [jobSkillSet, lowerSet, List.mem_dedup, List.mem_map]
  exact ⟨x, List.mem_append_right _ hx, hxs⟩

/-- The required-skill denominator is nonnegative. -/
theorem requiredTotalWeight_nonneg (job : JobPosting) :
    0 ≤ requiredTotalWeight job := by
  apply List.sum_nonneg
  intro x hx
  simp only [requiredTotalWeight, List.mem_map] at hx
  obtain ⟨p, _, hpx⟩ := hx
  rw [← hpx]
  exact mul_nonneg (Nat.cast_nonneg _) (le_of_lt (skillWeight_pos _))

/-- The skill score in terms of the accumulated weights. -/
theorem skills_score_eq (resume : ResumeData) (job : JobPosting) :
    (calculateSkillsMatch resume job).score =
      min 100 (if 0 < skillsTotalWeight job then
        skillsMatchedWeight resume job / skillsTotalWeight job * 100 else 0) := rfl

/-- A successful duration is the month difference of two successful date
parses (with "present"-style end dates read as the current date). -/
theorem calcDuration_spec (now : Int × Int) (s e : String) (d : Int)
    (h : calculateDurationMonths now s e = some d) :
    ∃ ps pe, parseDateToken now s = some ps ∧
      (if presentWords.contains (strLower e) = true then some now
       else parseDateToken now e) = some pe ∧
      d = (pe.1 - ps.1) * 12 + (pe.2 - ps.2) := by
  simp only [calculateDurationMonths] at h
  rcases hps : parseDateToken now s with _ | ps <;> rw [hps] at h
  · simp at h
  · rcases hpe : (if presentWords.contains (strLower e) = true then some now
        else parseDateToken now e) with _ | pe <;> rw [hpe] at h
    · simp at h
    · simp only [Option.some.injEq] at h
      exact ⟨ps, pe, rfl, rfl, h.symm⟩

/-- `_extract_dates` either produces no duration, or start and end dates
together with their computed duration. -/
theorem extractDates_shape (now : Int × Int) (text : String) :
    (extractDates now text).duration_months = none ∨
    ∃ sd ed, (extractDates now text).start_date = some sd ∧
      (extractDates now text).end_date = some ed ∧
      (extractDates now text).duration_months = calculateDurationMonths now sd ed := by
  simp only [extractDates]
  split
  · left; rfl
  · split
    · right; exact ⟨_, "Present", rfl, rfl, rfl⟩
    · left; rfl
  · right; exact ⟨_, _, rfl, rfl, rfl⟩

/-- A parsed work-experience entry carries exactly the date fields of
`_extract_dates` on its text. -/
theorem parse_entry_dates (now : Int × Int) (entry : String) (w : WorkExperience)
    (h : parseWorkExperienceEntry now entry = some w) :
    w.start_date = (extractDates now entry).start_date ∧
    w.end_date = (extractDates now entry).end_date ∧
    w.duration_months = (extractDates now entry).duration_months := by
  simp only [parseWorkExperienceEntry] at h
  split at h
  · exact absurd h (by simp)
  · obtain rfl := (Option.some.injEq _ _).mp h.symm
    exact ⟨rfl, rfl, rfl⟩

/-- Every extracted work-experience record comes from a successfully parsed
entry. -/
theorem mem_extractWorkExperience (now : Int × Int) (text : String)
    (w : WorkExperience) (hm : w ∈ extractWorkExperience now text) :
    ∃ entry, parseWorkExperienceEntry now entry = some w := by
  simp only [extractWorkExperience] at hm
  split at hm
  · exact absurd hm (by simp)
  · split at hm
    · obtain ⟨e, _, he⟩ := List.mem_filterMap.mp hm
      revert he
      split
      · intro he; exact ⟨_, he⟩
      · intro he; exact absurd he (by simp)
    · obtain ⟨chunk, _, hc⟩ := List.mem_filterMap.mp hm
      exact ⟨_, hc⟩

/-- The keys of the conversion fold are old keys or category values. -/
theorem addReq_keys (d : List (String × List String)) (r : JobRequirement) :
    (addReq d r).map Prod.fst = d.map Prod.fst ∨
    (addReq d r).map Prod.fst = d.map Prod.fst ++ [r.category.value] := by
  simp only [addReq]
  split
  · left
    rw [List.map_map]
    apply List.map_congr_left
    intro p _
    simp only [Function.comp_apply]
    split
    · rename_i hp; simp [hp]
    · rfl
  · right; simp

/-- Every key the conversion fold produces beyond its accumulator is a
`SkillCategory` value. -/
theorem convert_keys_aux (reqs : List JobRequirement) :
    ∀ d key, key ∈ (reqs.foldl addReq d).map Prod.fst →
      key ∈ d.map Prod.fst ∨ ∃ c : SkillCategory, key = c.value := by
  induction reqs with
  | nil => intro d key h; exact Or.inl h
  | cons r rs ih =>
    intro d key h
    rcases ih (addReq d r) key h with h1 | h2
    · rcases addReq_keys d r with he | he
      · rw [he] at h1; exact Or.inl h1
      · rw [he] at h1
        rcases List.mem_append.mp h1 with h3 | h3
        · exact Or.inl h3
        · right; exact ⟨r.category, by simpa using h3⟩
    · exact Or.inr h2

/-! ## Claim theorems -/

/-- C1: for every combination of component matches, the overall score of
`_calculate_overall_match` equals skills×0.40 + experience×0.30 +
education×0.15 + semantic×0.15, and the match level is "excellent" at
score ≥ 85, "good" at ≥ 70, "fair" at ≥ 55, and "poor" otherwise. -/
theorem overall_score_weighted_sum_and_level (sk : SkillMatch)
    (ex : ExperienceMatch) (ed : EducationMatch) (sem : ℚ) :
    (calculateOverallMatch sk ex ed sem).score =
      sk.score * (40/100) + ex.score * (30/100) + ed.score * (15/100) +
        sem * (15/100) ∧
    (calculateOverallMatch sk ex ed sem).match_level =
      (if (calculateOverallMatch sk ex ed sem).score ≥ 85 then "excellent"
       else if (calculateOverallMatch sk ex ed sem).score ≥ 70 then "good"
       else if (calculateOverallMatch sk ex ed sem).score ≥ 55 then "fair"
       else "poor") := by
  refine ⟨by simp only [calculateOverallMatch]; ring, ?_⟩
  simp only [calculateOverallMatch]

/-- C2 counterexample: against a job listing no skills at all, a résumé
whose skill set (vacuously) contains every required and preferred job
skill scores 0, not the claimed 100. -/
theorem skills_superset_scores_zero_on_skillless_job :
    (∀ s ∈ jobSkillSet jobNoSkills, s ∈ resumeSkillSet resumeEmptySkills) ∧
    (calculateSkillsMatch resumeEmptySkills jobNoSkills).score ≠ 100 ∧
    (calculateSkillsMatch resumeEmptySkills jobNoSkills).score = 0 := by
  have hT : skillsTotalWeight jobNoSkills = 0 := by
    simp [skillsTotalWeight, requiredTotalWeight, jobNoSkills, lowerSet]
  have hs : (calculateSkillsMatch resumeEmptySkills jobNoSkills).score = 0 := by
    rw [skills_score_eq, hT]
    norm_num
  exact ⟨by decide, by rw [hs]; norm_num, hs⟩

/-- C2 (amended): a résumé with an empty skill list scores 0 against any
job listing at least one required skill; and against any job listing at
least one required or preferred skill, a résumé whose lower-cased
canonical skill set contains every required and preferred job skill
scores 100. -/
theorem skills_match_empty_and_superset_scores (resume : ResumeData)
    (job : JobPosting) :
    (resume.skills = [] → (∃ p ∈ job.required_skills, p.2 ≠ []) →
      (calculateSkillsMatch resume job).score = 0) ∧
    (((∃ p ∈ job.required_skills, p.2 ≠ []) ∨ job.preferred_skills ≠ []) →
      (∀ s ∈ jobSkillSet job, s ∈ resumeSkillSet resume) →
      (calculateSkillsMatch resume job).score = 100) := by
  constructor
  · intro hnil _hreq
    have hrs : resumeSkillSet resume = [] := resumeSkillSet_nil resume hnil
    have hmw : skillsMatchedWeight resume job = 0 := by
      unfold skillsMatchedWeight requiredMatchedWeight
      rw [hrs]
      simp [interCount_nil]
    rw [skills_score_eq, hmw]
    split_ifs with h
    · simp
    · simp
  · intro hsome hsup
    have hmt : skillsMatchedWeight resume job = skillsTotalWeight job := by
      unfold skillsMatchedWeight skillsTotalWeight requiredMatchedWeight
        requiredTotalWeight
      congr 1
      · apply congrArg List.sum
        apply List.map_congr_left
        intro p hp
        rw [interCount_full]
        intro s hs
        exact hsup s (mem_jobSkillSet_required hp hs)
      · rw [interCount_full]
        intro s hs
        exact hsup s (mem_jobSkillSet_preferred hs)
    have hT : 0 < skillsTotalWeight job := by
      rcases hsome with ⟨p, hp, hne⟩ | hpref
      · have hlen : (0 : ℚ) < ((lowerSet p.2).length : ℚ) := by
          rw [Nat.cast_pos, List.length_pos]
          exact lowerSet_ne_nil _ hne
        have hterm : (0 : ℚ) < ((lowerSet p.2).length : ℚ) * skillWeight p.1 :=
          mul_pos hlen (skillWeight_pos _)
        have hle : ((lowerSet p.2).length : ℚ) * skillWeight p.1 ≤
            requiredTotalWeight job := by
          apply List.single_le_sum
          · intro x hx
            simp only [List.mem_map] at hx
            obtain ⟨q, _, hqx⟩ := hx
            rw [← hqx]
            exact mul_nonneg (Nat.cast_nonneg _) (le_of_lt (skillWeight_pos _))
          · exact List.mem_map_of_mem _ hp
        have hprefn : (0 : ℚ) ≤
            ((lowerSet job.preferred_skills).length : ℚ) * (5/10) :=
          mul_nonneg (Nat.cast_nonneg _) (by norm_num)
        unfold skillsTotalWeight
        have := lt_of_lt_of_le hterm hle
        linarith
      · have hlen : (0 : ℚ) < ((lowerSet job.preferred_skills).length : ℚ) := by
          rw [Nat.cast_pos, List.length_pos]
          exact lowerSet_ne_nil _ hpref
        have hterm : (0 : ℚ) <
            ((lowerSet job.preferred_skills).length : ℚ) * (5/10) :=
          mul_pos hlen (by norm_num)
        have := requiredTotalWeight_nonneg job
        unfold skillsTotalWeight
        linarith
    rw [skills_score_eq, hmt, if_pos hT, div_self (ne_of_gt hT), one_mul]
    exact min_self 100

/-- C2 witness: the empty-skill résumé scores 0 against the Python/React/AWS
job, and the résumé holding all three skills scores 100. -/
theorem skills_match_empty_and_superset_scores_witness :
    (calculateSkillsMatch resumeEmptySkills jobPRA).score = 0 ∧
    (calculateSkillsMatch resumePRA jobPRA).score = 100 := by
  constructor
  · exact (skills_match_empty_and_superset_scores resumeEmptySkills jobPRA).1
      rfl (by decide)
  · exact (skills_match_empty_and_superset_scores resumePRA jobPRA).2
      (Or.inl (by decide)) (by decide)

/-- C3 counterexample: a résumé matched against a job with empty
`required_skills` and empty `preferred_skills` receives skill score 0, not
the claimed neutral 80. -/
theorem skillless_job_neutral_score_counterexample :
    (calculateSkillsMatch resumePRA jobNoSkills).score ≠ 80 ∧
    (calculateSkillsMatch resumePRA jobNoSkills).score = 0 := by
  have hT : skillsTotalWeight jobNoSkills = 0 := by
    simp [skillsTotalWeight, requiredTotalWeight, jobNoSkills, lowerSet]
  have hs : (calculateSkillsMatch resumePRA jobNoSkills).score = 0 := by
    rw [skills_score_eq, hT]
    norm_num
  exact ⟨by rw [hs]; norm_num, hs⟩

/-- C3 (amended): for every résumé, matching against a job whose
`required_skills` mapping and `preferred_skills` list are both empty
(total_weight 0) yields skill score 0 — the code has no neutral-80
convention, so this case is indistinguishable from a complete mismatch,
not from a perfect match. -/
theorem skillless_job_scores_zero (resume : ResumeData) (job : JobPosting)
    (h1 : job.required_skills = []) (h2 : job.preferred_skills = []) :
    (calculateSkillsMatch resume job).score = 0 := by
  have hT : skillsTotalWeight job = 0 := by
    simp [skillsTotalWeight, requiredTotalWeight, h1, h2, lowerSet]
  rw [skills_score_eq, hT]
  norm_num

/-- C3 witness: the concrete skill-less job scores 0 against a skilled
résumé. -/
theorem skillless_job_scores_zero_witness :
    (calculateSkillsMatch resumePRA jobNoSkills).score = 0 :=
  skillless_job_scores_zero resumePRA jobNoSkills rfl rfl

/-- C4: for every résumé and job, with `have` the résumé's total experience
and `need` the parsed required floor: `need = 0` scores 100; meeting the
floor scores `min(100, 80 + (have−need)×5)`; falling short scores
`max(0, (have/need)×80)`; `meets_requirements` is exactly `have ≥ need`;
hence exactly meeting a positive floor scores 80, strictly above every
score attainable when falling short. -/
theorem experience_score_formula (resume : ResumeData) (job : JobPosting) :
    let hv := orZero resume.total_experience_years
    let nd := extractExperienceYears (job.experience_required.getD "")
    let em := calculateExperienceMatch resume job
    (nd = 0 → em.score = 100) ∧
    (nd ≠ 0 → nd ≤ hv → em.score = min 100 (80 + (hv - nd) * 5)) ∧
    (nd ≠ 0 → hv < nd → em.score = max 0 (hv / nd * 80)) ∧
    (em.meets_requirements = true ↔ nd ≤ hv) ∧
    (0 < nd → hv = nd → em.score = 80) ∧
    (0 < nd → hv < nd → em.score < 80) := by
  intro hv nd em
  have hscore : em.score = if nd = 0 then 100 else if hv ≥ nd then
      min 100 (80 + (hv - nd) * 5) else max 0 (hv / nd * 80) := rfl
  have hmeets : em.meets_requirements = decide (hv ≥ nd) := rfl
  refine ⟨?_, ?_, ?_, ?_, ?_, ?_⟩
  · intro h0; rw [hscore, if_pos h0]
  · intro h0 hge; rw [hscore, if_neg h0, if_pos (by exact hge)]
  · intro h0 hlt; rw [hscore, if_neg h0, if_neg (by exact not_le.mpr hlt)]
  · rw [hmeets]; simp [ge_iff_le]
  · intro hpos heq
    rw [hscore, if_neg (ne_of_gt hpos), if_pos (le_of_eq heq.symm)]
    rw [heq]; norm_num
  · intro hpos hlt
    rw [hscore, if_neg (ne_of_gt hpos), if_neg (not_le.mpr hlt)]
    have h1 : hv / nd * 80 < 80 := by
      have : hv / nd < 1 := (div_lt_one hpos).mpr hlt
      calc hv / nd * 80 < 1 * 80 := mul_lt_mul_of_pos_right this (by norm_num)
      _ = 80 := by norm_num
    exact max_lt (by norm_num) h1

/-- C4 witness: a résumé with exactly 3 years against a "3+ years" job
scores 80 and meets the requirement. -/
theorem experience_score_formula_witness :
    (calculateExperienceMatch resumeThreeYears jobThreePlusYears).score = 80 ∧
    (calculateExperienceMatch resumeThreeYears jobThreePlusYears).meets_requirements
      = true := by
  obtain ⟨_, _, _, h4, h5, _⟩ :=
    experience_score_formula resumeThreeYears jobThreePlusYears
  have hnd : extractExperienceYears
      (jobThreePlusYears.experience_required.getD "") = 3 := by decide
  have hhv : orZero resumeThreeYears.total_experience_years = 3 := by decide
  constructor
  · exact h5 (by rw [hnd]; norm_num) (by rw [hhv, hnd])
  · exact h4.mpr (by rw [hhv, hnd])

/-- C5 counterexample: a résumé whose highest degree is a bachelor's,
matched against a job requiring a bachelor's, scores 100 — not the 80 the
claim's `min(100, 80 + 5×excess)` formula predicts. -/
theorem education_meeting_requirement_scores_100_counterexample :
    (calculateEducationMatch resumeBachelor jobBachelor).score = 100 ∧
    (calculateEducationMatch resumeBachelor jobBachelor).score ≠ 80 := by
  constructor
  · decide
  · decide

/-- C5 (amended): the code's hierarchy is high school 1, associate 2,
bachelor 3, master 4, phd/doctorate 5, matched by substring; with a stated
requirement, a résumé with no education records scores 0; meeting or
exceeding the required level scores a flat 100 (not 80 + 5×excess); and
falling short scores (candidate/required)×70 (not ×80). -/
theorem education_score_actual_formula (resume : ResumeData) (job : JobPosting)
    (req : String) (hreq : job.education_required = some req) (hne : req ≠ "") :
    let ed := calculateEducationMatch resume job
    (resume.education = [] → ed.score = 0 ∧ ed.meets_requirements = false) ∧
    (resume.education ≠ [] →
      requiredLevelValue (strLower req) ≤ maxResumeLevel resume →
      ed.score = 100 ∧ ed.meets_requirements = true) ∧
    (resume.education ≠ [] →
      maxResumeLevel resume < requiredLevelValue (strLower req) →
      ed.score = ((maxResumeLevel resume : ℚ) /
        (requiredLevelValue (strLower req) : ℚ)) * 70 ∧
      ed.meets_requirements = false) := by
  intro ed
  have hfalsy : optFalsy job.education_required = false := by
    rw [hreq]
    simpa [optFalsy] using hne
  have hed : ed = calculateEducationMatch resume job := rfl
  unfold calculateEducationMatch at hed
  rw [hfalsy, hreq] at hed
  simp only [Bool.false_eq_true, if_false, Option.getD_some] at hed
  refine ⟨?_, ?_, ?_⟩
  · intro hnil
    rw [hed]
    simp [hnil]
  · intro hnn hge
    have hemp : resume.education.isEmpty = false := by
      simpa [List.isEmpty_iff] using hnn
    rw [hed]
    simp only [hemp, Bool.false_eq_true, if_false, ge_iff_le, if_pos hge]
    exact ⟨trivial, trivial⟩
  · intro hnn hlt
    have hemp : resume.education.isEmpty = false := by
      simpa [List.isEmpty_iff] using hnn
    have hpos : 0 < requiredLevelValue (strLower req) :=
      Nat.lt_of_le_of_lt (Nat.zero_le _) hlt
    rw [hed]
    simp only [hemp, Bool.false_eq_true, if_false, ge_iff_le,
      if_neg (Nat.not_le.mpr hlt), if_pos hpos]
    exact ⟨trivial, trivial⟩

/-- C5 witness: an associate degree (level 2) against a required master's
(level 4) scores 2/4 × 70 = 35 and fails the requirement. -/
theorem education_score_actual_formula_witness :
    (calculateEducationMatch resumeAssociate jobMaster).score = 35 ∧
    (calculateEducationMatch resumeAssociate jobMaster).meets_requirements
      = false := by
  obtain ⟨_, _, h3⟩ := education_score_actual_formula resumeAssociate jobMaster
    "master" rfl (by decide)
  have hm : maxResumeLevel resumeAssociate = 2 := by decide
  have hr : requiredLevelValue (strLower "master") = 4 := by decide
  obtain ⟨hs, hmeets⟩ := h3 (by decide) (by rw [hm, hr]; norm_num)
  refine ⟨?_, hmeets⟩
  rw [hs, hm, hr]
  norm_num

/-- C6: the section segmenter maps `"Experience\nfoo\nEducation\nbar"` to
exactly the two sections experience ↦ foo and education ↦ bar with no
summary key; but on `"hello\nworld\nExperience\nfoo"` only the first
pre-header line survives as the summary — "world" is silently dropped,
because the guard `if not sections.get('summary')` makes the accumulation
branch unreachable, contradicting the documented accumulation of all
pre-header lines. -/
theorem extract_sections_example_and_dropped_preheader_line :
    extractSections "Experience\nfoo\nEducation\nbar" =
      [("experience", "foo"), ("education", "bar")] ∧
    extractSections "hello\nworld\nExperience\nfoo" =
      [("summary", "hello"), ("experience", "foo")] := by
  constructor
  · decide
  · decide

/-- C7: `overall_match` is not a field of `schemas.MatchResult`, so the
score read in `find_best_candidates` raises `AttributeError` for every
résumé, the caught exception skips each one, and the tool always returns
an empty candidate list — no descending order and no 1..N ranking
positions ever materialise; `match_resume_to_job` itself always leaves
`ranking_position` as `None`. -/
theorem find_best_candidates_always_empty_no_ranks :
    ("overall_match" ∉ matchResultFields) ∧
    (∀ (semOf : ResumeData → ℚ) (job : JobPosting) (resumes : List ResumeData)
      (limit : ℕ), findBestCandidates semOf job resumes limit = []) ∧
    (∀ (sem : ℚ) (resume : ResumeData) (job : JobPosting),
      (matchResumeToJob sem resume job).ranking_position = none) := by
  refine ⟨by decide, ?_, fun _ _ _ => rfl⟩
  intro semOf job resumes limit
  have hnone : ∀ r : ResumeData, (candidateEntry semOf job r).toOption = none :=
    fun _ => rfl
  have hfm : resumes.filterMap
      (fun r => (candidateEntry semOf job r).toOption) = [] :=
    List.filterMap_eq_nil_iff.mpr (fun a _ => hnone a)
  simp [findBestCandidates, hfm, sortByScoreDesc]

/-- C8 counterexample: on empty input text, `analyze` does not raise — it
returns the fully sparse record (and no `ParseError` exists anywhere in
the codebase to be raised). -/
theorem analyze_empty_text_returns_record :
    analyze (2025, 6) "" "empty.txt" = .ok sparseRecord := rfl

/-- C8 (amended): `analyze_resume` never raises `ParseError` — no such
error exists in the code and the method has no failure path; for every
input text, the empty string included, it returns a (possibly sparse)
record, and no sub-extractor raises: absence of a pattern match yields an
empty or absent field. -/
theorem analyze_never_raises (now : Int × Int) (text filename : String) :
    (analyze now text filename).isOk = true := rfl

/-- C9 counterexample: the work-experience extractor, given an entry whose
two year tokens are reversed (`(2022-2020)`), produces a record with
`duration_months = -24 < 0`, violating the claimed non-negativity. -/
theorem work_experience_negative_duration_counterexample :
    ((extractWorkExperience (2025, 6)
        "Engineer at Acme (2022-2020)\nBuilt tools\nShipped more").map
      (fun w => w.duration_months)) = [some (-24)] ∧ (-24 : Int) < 0 := by
  constructor
  · decide
  · decide

/-- C9 (amended): for every record the work-experience extractor produces,
`duration_months`, when present, equals the signed whole-month difference
between the parsed end and start dates ("present" read as the analysis
date) — it can be negative when the extracted dates are out of order; and
when the dates fail to parse the duration is absent, never zero. -/
theorem work_experience_duration_consistency (now : Int × Int) (text : String)
    (w : WorkExperience) (hm : w ∈ extractWorkExperience now text) (d : Int)
    (hd : w.duration_months = some d) :
    ∃ sd ed ps pe, w.start_date = some sd ∧ w.end_date = some ed ∧
      parseDateToken now sd = some ps ∧
      (if presentWords.contains (strLower ed) = true then some now
       else parseDateToken now ed) = some pe ∧
      d = (pe.1 - ps.1) * 12 + (pe.2 - ps.2) := by
  obtain ⟨entry, hp⟩ := mem_extractWorkExperience now text w hm
  obtain ⟨hs, he, hdm⟩ := parse_entry_dates now entry w hp
  rcases extractDates_shape now entry with hnone | ⟨sd, ed, hsd, hed, hdur⟩
  · rw [hdm, hnone] at hd; exact absurd hd (by simp)
  · rw [hdm, hdur] at hd
    obtain ⟨ps, pe, hps, hpe, hdiff⟩ := calcDuration_spec now sd ed d hd
    exact ⟨sd, ed, ps, pe, hs.trans hsd, he.trans hed, hps, hpe, hdiff⟩

/-- C9 witness: the record extracted from "Dev at Beta (2019-2021)" has
duration 24, consistent with its parsed dates. -/
theorem work_experience_duration_consistency_witness :
    wBeta ∈ extractWorkExperience (2025, 6)
      "Dev at Beta (2019-2021)\nWrote code\nShipped features" ∧
    (∃ sd ed ps pe, wBeta.start_date = some sd ∧ wBeta.end_date = some ed ∧
      parseDateToken (2025, 6) sd = some ps ∧
      (if presentWords.contains (strLower ed) = true then
        some ((2025 : Int), (6 : Int))
       else parseDateToken (2025, 6) ed) = some pe ∧
      (24 : Int) = (pe.1 - ps.1) * 12 + (pe.2 - ps.2)) := by
  have hm : wBeta ∈ extractWorkExperience (2025, 6)
      "Dev at Beta (2019-2021)\nWrote code\nShipped features" := by decide
  exact ⟨hm, work_experience_duration_consistency (2025, 6)
    "Dev at Beta (2019-2021)\nWrote code\nShipped features" wBeta hm 24 (by decide)⟩

/-- C10: every `required_skills` key the job analyzer's conversion produces
is a `SkillCategory` enum value, none of which occurs in the matcher's
category-weight table keys, so skill scoring always applies the default
weight 1.0 to the analyzer's categories and the per-category weights
(including the 0.8 soft-skill discount) are never used. -/
theorem job_analyzer_category_keys_default_weight (reqs : List JobRequirement)
    (key : String)
    (h : key ∈ (convertRequirementsToSkillsDict reqs).map Prod.fst) :
    (∃ c : SkillCategory, key = c.value) ∧
    skillWeights.lookup key = none ∧ skillWeight key = 1 := by
  have h1 := convert_keys_aux reqs [] key h
  simp only [List.map_nil, List.not_mem_nil, false_or] at h1
  obtain ⟨c, hc⟩ := h1
  have hnone : skillWeights.lookup key = none := by subst hc; cases c <;> decide
  refine ⟨⟨c, hc⟩, hnone, ?_⟩
  unfold skillWeight
  rw [hnone]
  rfl

/-- C10 witness: the key "technical" produced from one technical Python
requirement is a category value absent from the weight table and gets
weight 1. -/
theorem job_analyzer_category_keys_default_weight_witness :
    ("technical" ∈
      (convertRequirementsToSkillsDict [reqPythonTechnical]).map Prod.fst) ∧
    ((∃ c : SkillCategory, "technical" = c.value) ∧
      skillWeights.lookup "technical" = none ∧ skillWeight "technical" = 1) :=
  ⟨by decide, job_analyzer_category_keys_default_weight [reqPythonTechnical]
    "technical" (by decide)⟩

end ResumeMcp
